import Mathlib

/-!
# Kong Konnect runtime certificate generator: provisioning and secret rotation

A shallow embedding of `main.go` (runtime-group flow: `main`,
`GetRuntimeGroupConfiguration`, `GenerateKeys`, `CreateSecret`) and of
`cmd/createMeshZone.go` (create-zone flow: `createGlobalControlPlane`,
`createMeshZone`, the `create-zone` command).

The Go code talks to three collaborators that are not part of the repository: the
Konnect HTTP API, AWS Secrets Manager, and the Go runtime (clock, random source).
They are an explicit environment `Env σ` over a state `σ`; every call is recorded in a
trace of `Event`s, in program order.  A Go function becomes a `Prog σ α`, a function
from the environment state to an `Outcome` (normal return, `log.Fatal`, `panic`, or
the polling loop running out of fuel), the new state and the events it emitted.
-/

namespace Konnect

/-! ## Go library functions used by the program -/

/-- Whether the character list `s` begins with `p`. -/
def startsWith : List Char → List Char → Bool
  | _, [] => true
  | [], _ :: _ => false
  | c :: s, d :: p => c == d && startsWith s p

/-- Whether `p` occurs in `s` as a contiguous block. -/
def containsChars : List Char → List Char → Bool
  | [], p => startsWith [] p
  | c :: s, p => startsWith (c :: s) p || containsChars s p

/-- Go `strings.Contains(s, substr)`. -/
def Contains (s substr : String) : Bool :=
  containsChars s.data substr.data

/-- Pure functions of the Go standard library that depend on tables or parsers which
are not part of the repository. -/
structure Lib where
  /-- The general case of `strings.EqualFold` for two different runes `sr < tr` with `tr`
  outside ASCII: whether iterating `unicode.SimpleFold` from `sr` reaches `tr`. -/
  foldReaches : Char → Char → Bool
  /-- The error, if any, with which `http.NewRequest` rejects a URL (`url.Parse`). -/
  urlParseError : String → Option String

/-- One step of `strings.EqualFold`: whether the runes `sr` and `tr` are equal under
simple case folding.  Equal runes match; otherwise the runes are ordered, an ASCII pair
matches when it is an upper-case letter and its lower-case form, and a pair with a
non-ASCII rune is decided by the Unicode folding orbit. -/
def runeEqualFold (lib : Lib) (sr tr : Char) : Bool :=
  if tr = sr then true
  else
    let lo := if tr.toNat < sr.toNat then tr else sr
    let hi := if tr.toNat < sr.toNat then sr else tr
    if hi.toNat < 128 then
      decide (65 ≤ lo.toNat) && decide (lo.toNat ≤ 90) && decide (hi.toNat = lo.toNat + 32)
    else lib.foldReaches lo hi

/-- Rune-by-rune comparison of `strings.EqualFold`. -/
def equalFoldRunes (lib : Lib) : List Char → List Char → Bool
  | [], [] => true
  | [], _ :: _ => false
  | _ :: _, [] => false
  | sr :: s, tr :: t => runeEqualFold lib sr tr && equalFoldRunes lib s t

/-- Go `strings.EqualFold(s, t)`. -/
def EqualFold (lib : Lib) (s t : String) : Bool :=
  equalFoldRunes lib s.data t.data

/-! ### `time.Time`, in UTC, as nanoseconds since the Unix epoch -/

/-- An instant: nanoseconds since 1970-01-01T00:00:00Z. -/
structure Time where
  unixNano : Nat
  deriving DecidableEq, Repr

def secondsPerDay : Nat := 86400
def nanosPerSecond : Nat := 1000000000
def daysPer400Years : Nat := 365 * 400 + 97
def daysPer100Years : Nat := 365 * 100 + 24
def daysPer4Years : Nat := 365 * 4 + 1
/-- Days from 0001-01-01 to 1970-01-01. -/
def unixEpochDays : Nat := 719162

/-- Go `time.isLeap`. -/
def isLeap (year : Nat) : Bool :=
  year % 4 == 0 && (year % 100 != 0 || year % 400 == 0)

/-- Go `time.daysBefore`: days in a non-leap year before month `m + 1` starts. -/
def daysBefore (m : Nat) : Nat :=
  [0, 31, 59, 90, 120, 151, 181, 212, 243, 273, 304, 334, 365].getD m 365

/-- Go `time.daysSinceEpoch`, counted from 0001-01-01: days before 1 January of `year`. -/
def daysSinceEpoch (year : Nat) : Nat :=
  let y := year - 1
  let n400 := y / 400
  let y1 := y - 400 * n400
  let n100 := y1 / 100
  let y2 := y1 - 100 * n100
  let n4 := y2 / 4
  let y3 := y2 - 4 * n4
  daysPer400Years * n400 + daysPer100Years * n100 + daysPer4Years * n4 + 365 * y3

/-- Go `time.absDate`: the year and the zero-based day of the year of a day count from
0001-01-01. -/
def absDate (days : Nat) : Nat × Nat :=
  let n400 := days / daysPer400Years
  let d1 := days - daysPer400Years * n400
  let n100 := d1 / daysPer100Years
  let n100 := n100 - n100 / 4
  let d2 := d1 - daysPer100Years * n100
  let n4 := d2 / daysPer4Years
  let d3 := d2 - daysPer4Years * n4
  let n1 := d3 / 365
  let n1 := n1 - n1 / 4
  let d4 := d3 - 365 * n1
  (400 * n400 + 100 * n100 + 4 * n4 + n1 + 1, d4)

/-- The month (1 to 12) and the day of the month of the zero-based day `yday` of `year`,
as the second half of Go `time.absDate`. -/
def monthDay (year yday : Nat) : Nat × Nat :=
  if isLeap year && yday == 59 then (2, 29)
  else
    let day := if isLeap year && yday > 59 then yday - 1 else yday
    let m := day / 31
    let stop := daysBefore (m + 1)
    if day ≥ stop then (m + 2, day - stop + 1) else (m + 1, day - daysBefore m + 1)

/-- Go `time.Date(year, month, day, hour, min, sec, nsec, time.UTC)` for a month that may
exceed 12 and a day that may exceed the length of the month. -/
def Date (year month day hour min sec nsec : Nat) : Time :=
  let m := month - 1
  let year := year + m / 12
  let m := m % 12
  let d := daysSinceEpoch year + daysBefore m
  let d := if isLeap year && m + 1 ≥ 3 then d + 1 else d
  let d := d + (day - 1)
  let abs := d * secondsPerDay + hour * 3600 + min * 60 + sec
  ⟨(abs - unixEpochDays * secondsPerDay) * nanosPerSecond + nsec⟩

/-- Go `t.AddDate(years, months, days)`. -/
def Time.AddDate (t : Time) (years months days : Nat) : Time :=
  let secs := t.unixNano / nanosPerSecond
  let nsec := t.unixNano % nanosPerSecond
  let absDays := secs / secondsPerDay + unixEpochDays
  let rem := secs % secondsPerDay
  let yd := absDate absDays
  let md := monthDay yd.1 yd.2
  Date (yd.1 + years) (md.1 + months) (md.2 + days) (rem / 3600) (rem % 3600 / 60) (rem % 60) nsec

/-! ### `encoding/pem` -/

abbrev Bytes := List Nat

/-- The standard base64 alphabet. -/
def base64Digit (n : Nat) : Char :=
  "ABCDEFGHIJKLMNOPQRSTUVWXYZabcdefghijklmnopqrstuvwxyz0123456789+/".data.getD n '='

/-- Standard padded base64. -/
def base64 : Bytes → List Char
  | [] => []
  | [a] => [base64Digit (a / 4), base64Digit (a % 4 * 16), '=', '=']
  | [a, b] => [base64Digit (a / 4), base64Digit (a % 4 * 16 + b / 16), base64Digit (b % 16 * 4), '=']
  | a :: b :: c :: rest =>
    base64Digit (a / 4) :: base64Digit (a % 4 * 16 + b / 16) ::
      base64Digit (b % 16 * 4 + c / 64) :: base64Digit (c % 64) :: base64 rest

/-- Lines of at most 64 characters, each ended by a newline. -/
def pemLines : Nat → List Char → List Char
  | 0, _ => []
  | _ + 1, [] => []
  | fuel + 1, c :: cs => (c :: cs).take 64 ++ '\n' :: pemLines fuel ((c :: cs).drop 64)

/-- Go `pem.EncodeToMemory` of a block without headers. -/
def EncodeToMemory (type : String) (bytes : Bytes) : String :=
  let body := base64 bytes
  "-----BEGIN " ++ type ++ "-----\n" ++ String.mk (pemLines body.length body) ++
    "-----END " ++ type ++ "-----\n"

/-! ### `net/url` -/

/-- Upper-case hexadecimal digit. -/
def hexDigit (n : Nat) : Char :=
  "0123456789ABCDEF".data.getD n '0'

/-- One byte of `url.QueryEscape`: unreserved ASCII is kept, a space becomes `+`, every
other byte is percent-encoded. -/
def escapeByte (b : Nat) : List Char :=
  let c := Char.ofNat b
  if b < 128 && (c.isAlphanum || c == '-' || c == '_' || c == '.' || c == '~') then [c]
  else if b == 32 then ['+']
  else ['%', hexDigit (b / 16), hexDigit (b % 16)]

/-- The UTF-8 encoding of a rune. -/
def utf8Bytes (c : Char) : List Nat :=
  let n := c.toNat
  if n < 128 then [n]
  else if n < 2048 then [192 + n / 64, 128 + n % 64]
  else if n < 65536 then [224 + n / 4096, 128 + n / 64 % 64, 128 + n % 64]
  else [240 + n / 262144, 128 + n / 4096 % 64, 128 + n / 64 % 64, 128 + n % 64]

/-- Go `url.QueryEscape`. -/
def QueryEscape (s : String) : String :=
  String.mk ((s.data.map fun c => (utf8Bytes c).map escapeByte).flatten.flatten)

/-! ## Data model of the two packages -/

/-- Go `pkix.Name`, the fields the program sets. -/
structure PkixName where
  Organization : List String := []
  CommonName : String := ""
  Country : List String := []
  deriving DecidableEq, Repr

def KeyUsageDigitalSignature : Nat := 1
def KeyUsageKeyEncipherment : Nat := 4
def ExtKeyUsageServerAuth : Nat := 1

/-- Go `x509.Certificate`, the fields the program sets in its template. -/
structure Certificate where
  SerialNumber : Int
  Subject : PkixName
  NotBefore : Time
  NotAfter : Time
  KeyUsage : Nat
  ExtKeyUsage : List Nat
  BasicConstraintsValid : Bool
  deriving DecidableEq, Repr

/-- An RSA public key, represented by its DER encoding. -/
structure PublicKey where
  der : Bytes
  deriving DecidableEq, Repr

/-- An RSA private key, represented by its PKCS#1 DER encoding. -/
structure PrivateKey where
  PublicKey : PublicKey
  pkcs1 : Bytes
  deriving DecidableEq, Repr

/-- Go `x509.MarshalPKCS1PrivateKey`. -/
def MarshalPKCS1PrivateKey (key : PrivateKey) : Bytes := key.pkcs1

namespace Cmd

/-- The package-level variables of package `cmd` (`cmd/inputs.go`), set from the flags. -/
structure Flags where
  kong_api_endpoint : String := "https://us.api.konghq.com"
  personal_access_token : String := ""
  api_version : String := ""
  mesh_api_version : String := "v0"
  gateway_control_plane_name : String := ""
  cluster_type : String := ""
  mesh_control_plane_name : String := "default"
  mesh_zone_name : String := "default"
  deriving DecidableEq, Repr

structure Page where
  Size : Int := 0
  Total : Int := 0
  deriving DecidableEq, Repr

structure Meta where
  Page : Page := {}
  deriving DecidableEq, Repr

structure Labels where
  Test : String := ""
  deriving DecidableEq, Repr

structure GlobalControlPlane where
  ID : String := ""
  Name : String := ""
  Description : String := ""
  Labels : Labels := {}
  CreatedAt : Time := ⟨0⟩
  UpdatedAt : Time := ⟨0⟩
  deriving DecidableEq, Repr

structure GlobalControlPlaneList where
  Meta : Meta := {}
  Data : List GlobalControlPlane := []
  deriving DecidableEq, Repr

structure MeshZone where
  ID : String := ""
  Name : String := ""
  Token : String := ""
  deriving DecidableEq, Repr

structure CreateMeshZoneResponse where
  Token : String := ""
  deriving DecidableEq, Repr

structure CreateMeshZoneOutput where
  GlobalControlPlaneName : String := ""
  GlobalControlPlaneId : String := ""
  ZoneName : String := ""
  ZoneTokenSecretName : String := ""
  deriving DecidableEq, Repr

/-- The fields of `json.Marshal(output)`, named by the struct tags. -/
def CreateMeshZoneOutput.json (o : CreateMeshZoneOutput) : List (String × String) :=
  [("global_control_plane_name", o.GlobalControlPlaneName),
   ("global_control_plane_id", o.GlobalControlPlaneId),
   ("zone_name", o.ZoneName),
   ("zone_token_secret_name", o.ZoneTokenSecretName)]

end Cmd

namespace Main

/-- The package-level variables of package `main`, set from the flags. -/
structure Flags where
  kong_api_endpoint : String := "https://us.api.konghq.com"
  personal_access_token : String := ""
  api_version : String := "v2"
  runtime_group_name : String := "default"
  cluster_type : String := "CLUSTER_TYPE_HYBRID"
  deriving DecidableEq, Repr

structure RunTimeGroupName where
  Name : String
  ClusterType : String
  deriving DecidableEq, Repr

/-- The fields of `json.Marshal(data)`, named by the struct tags. -/
def RunTimeGroupName.json (d : RunTimeGroupName) : List (String × String) :=
  [("name", d.Name), ("cluster_type", d.ClusterType)]

structure Page where
  Total : Int := 0
  Size : Int := 0
  Number : Int := 0
  deriving DecidableEq, Repr

structure Meta where
  Page : Page := {}
  deriving DecidableEq, Repr

structure Config where
  ControlPlaneEndpoint : String := ""
  TelemetryEndpoint : String := ""
  ClusterType : String := ""
  deriving DecidableEq, Repr

/-- One element of `RuntimeConfiguration.Data`. -/
structure RuntimeGroup where
  ID : String := ""
  Name : String := ""
  Description : String := ""
  Config : Config := {}
  CreatedAt : Time := ⟨0⟩
  UpdatedAt : Time := ⟨0⟩
  deriving DecidableEq, Repr

structure RuntimeConfiguration where
  Meta : Meta := {}
  Data : List RuntimeGroup := []
  deriving DecidableEq, Repr

structure Output where
  ControlPlaneEndpoint : String := ""
  TelemetryEndpoint : String := ""
  Name : String := ""
  AWSCertManagerCRT : String := ""
  AWSCertManagerKey : String := ""
  PersonalAccessToken : String := ""
  deriving DecidableEq, Repr

/-- The fields of `json.Marshal(output)`, named by the struct tags. -/
def Output.json (o : Output) : List (String × String) :=
  [("cluster_dns", o.ControlPlaneEndpoint),
   ("telemetry_dns", o.TelemetryEndpoint),
   ("runtime_name", o.Name),
   ("cert_secret_name", o.AWSCertManagerCRT),
   ("key_secret_name", o.AWSCertManagerKey),
   ("personal_access_token", o.PersonalAccessToken)]

structure Cert where
  Certificate : String := ""
  deriving DecidableEq, Repr

/-- The fields of `json.Marshal(keyPair)`. -/
def Cert.json (c : Cert) : List (String × String) :=
  [("cert", c.Certificate)]

end Main

/-! ## The environment -/

/-- An HTTP request as the program builds it: method, URL, the three headers it sets,
and the JSON object sent as body (`none` for a nil body). -/
structure Request where
  Method : String
  URL : String
  Header : List (String × String) := []
  Body : Option (List (String × String)) := none
  deriving DecidableEq, Repr

/-- A response body, given by what `json.NewDecoder(resp.Body).Decode` yields for each of
the program's response types: the decoded value, or the decoding error. -/
structure Body where
  asGlobalControlPlaneList : Except String Cmd.GlobalControlPlaneList
  asGlobalControlPlane : Except String Cmd.GlobalControlPlane
  asCreateMeshZoneResponse : Except String Cmd.CreateMeshZoneResponse
  asRuntimeConfiguration : Except String Main.RuntimeConfiguration

structure Response where
  StatusCode : Nat
  Body : Body

/-- What the program does to the outside world, with the outside world's answer where
the program looks at it.  `call` marks the entry into a function of the program. -/
inductive Event where
  | httpDo (req : Request) (status : Option Nat)
  | loadDefaultConfig (err : Option String)
  | describeSecret (SecretId : String) (err : Option String)
  | deleteSecret (SecretId : String) (ForceDeleteWithoutRecovery : Bool) (err : Option String)
  | createSecret (Name : String) (SecretString : String) (err : Option String)
  | sleep (nanoseconds : Nat)
  | now (t : Time)
  | generateKey (bits : Nat)
  | createCertificate (template : Certificate) (parent : Certificate)
  | println (line : String)
  | printJSON (fields : List (String × String))
  | call (fn : String) (args : List String)
  deriving DecidableEq, Repr

/-- The collaborators of the program, as a state machine over `σ`.  Errors are the
text of the Go `error` (`none` or `Except.ok` when the call succeeds). -/
structure Env (σ : Type) where
  lib : Lib
  /-- Go `client.Do(req)`. -/
  Do : Request → σ → Except String Response × σ
  /-- Go `config.LoadDefaultConfig`. -/
  LoadDefaultConfig : σ → Option String × σ
  /-- Go `svc.DescribeSecret` by secret id. -/
  DescribeSecret : String → σ → Option String × σ
  /-- Go `svc.DeleteSecret` by secret id, with `ForceDeleteWithoutRecovery`. -/
  DeleteSecret : String → Bool → σ → Option String × σ
  /-- Go `svc.CreateSecret` with name and secret string. -/
  CreateSecret : String → String → σ → Option String × σ
  /-- Go `time.Sleep`. -/
  Sleep : Nat → σ → σ
  /-- Go `time.Now`. -/
  Now : σ → Time × σ
  /-- Go `rsa.GenerateKey(rand.Reader, bits)`. -/
  GenerateKey : Nat → σ → Except String PrivateKey × σ
  /-- Go `x509.CreateCertificate(rand.Reader, template, parent, pub, priv)`. -/
  CreateCertificate : Certificate → Certificate → PublicKey → PrivateKey → σ →
    Except String Bytes × σ

/-! ## Programs -/

/-- How a Go function ends. -/
inductive Outcome (α : Type) where
  /-- Normal return. -/
  | returned (a : α)
  /-- Go `log.Fatal`: the message is logged and the process exits with status 1. -/
  | fatal (msg : String)
  /-- Go `panic`. -/
  | panicked (msg : String)
  /-- The model ran out of fuel in an unbounded loop. -/
  | outOfFuel
  deriving DecidableEq, Repr

/-- The result of running a program: how it ended, the environment afterwards, and the
events it emitted, oldest first. -/
structure Run (σ α : Type) where
  outcome : Outcome α
  state : σ
  trace : List Event

/-- A program over the environment state `σ`. -/
def Prog (σ α : Type) : Type := σ → Run σ α

namespace Prog

variable {σ α β : Type}

def ret (a : α) : Prog σ α := fun s => ⟨.returned a, s, []⟩

/-- Sequencing: the second program runs only when the first returns; the traces are
concatenated. -/
def andThen (m : Prog σ α) (f : α → Prog σ β) : Prog σ β := fun s =>
  let r := m s
  match r.outcome with
  | .returned a =>
    let r2 := f a r.state
    ⟨r2.outcome, r2.state, r.trace ++ r2.trace⟩
  | .fatal msg => ⟨.fatal msg, r.state, r.trace⟩
  | .panicked msg => ⟨.panicked msg, r.state, r.trace⟩
  | .outOfFuel => ⟨.outOfFuel, r.state, r.trace⟩

instance : Monad (Prog σ) where
  pure := ret
  bind := andThen

/-- Record an event. -/
def emit (e : Event) : Prog σ Unit := fun s => ⟨.returned (), s, [e]⟩

/-- Go `log.Fatal(msg)`. -/
def logFatal (msg : String) : Prog σ α := fun s => ⟨.fatal msg, s, []⟩

/-- Go `panic(msg)`. -/
def goPanic (msg : String) : Prog σ α := fun s => ⟨.panicked msg, s, []⟩

/-- The loop bound of the model is exhausted. -/
def noFuel : Prog σ α := fun s => ⟨.outOfFuel, s, []⟩

/-- Go `fmt.Println(line)`. -/
def Println (line : String) : Prog σ Unit := emit (.println line)

/-- An environment call with a result `r` and the event that records it. -/
def perform (op : σ → α × σ) (ev : α → Event) : Prog σ α := fun s =>
  let r := op s
  ⟨.returned r.1, r.2, [ev r.1]⟩

end Prog

open Prog

variable {σ : Type}

/-- Go `http.NewRequest(method, url, body)`: the request, or the error of parsing the
URL. -/
def NewRequest (lib : Lib) (method url : String) (body : Option (List (String × String))) :
    Except String Request :=
  match lib.urlParseError url with
  | some err => .error err
  | none => .ok { Method := method, URL := url, Body := body }

/-- The three `req.Header.Set` calls every request of the program gets. -/
def setHeaders (req : Request) (personal_access_token : String) : Request :=
  { req with Header := [("Content-Type", "application/json"),
                        ("Authorization", "Bearer " ++ personal_access_token),
                        ("Accept", "application/json")] }

/-- Go `client.Do(req)`, recorded with the status code of the answer. -/
def clientDo (env : Env σ) (req : Request) : Prog σ (Except String Response) :=
  perform (env.Do req) fun r =>
    .httpDo req (match r with
      | .ok resp => some resp.StatusCode
      | .error _ => none)

namespace Main

/-- The polling loop of `CreateSecret` (`main.go`, lines 316 to 333): sleep five seconds,
describe the secret, stop on a not-found error, panic on any other error, go round again
while the secret is still described.  `fuel` bounds the number of rounds. -/
def waitForDeletion (env : Env σ) (secretName : String) : Nat → Prog σ Unit
  | 0 => noFuel
  | fuel + 1 => do
    perform (fun s => ((), env.Sleep (5 * nanosPerSecond) s)) (fun _ => .sleep (5 * nanosPerSecond))
    let err ← perform (env.DescribeSecret secretName) (.describeSecret secretName)
    match err with
    | some e =>
      if Contains e "ResourceNotFoundException" then pure ()
      else goPanic ("failed to describe secret, " ++ e)
    | none => waitForDeletion env secretName fuel

/-- Go `CreateSecret(name, secret)` of `main.go`. -/
def CreateSecret (env : Env σ) (fuel : Nat) (name secret : String) : Prog σ Unit := do
  emit (.call "CreateSecret" [name, secret])
  let secretName := name
  let err ← perform env.LoadDefaultConfig .loadDefaultConfig
  match err with
  | some e => goPanic ("failed to load AWS config, " ++ e)
  | none => pure ()
  let err ← perform (env.DescribeSecret secretName) (.describeSecret secretName)
  match err with
  | some e =>
    if Contains e "ResourceNotFoundException" then pure ()
    else goPanic ("failed to describe secret, " ++ e)
  | none => do
    let isTrue := true
    let err ← perform (env.DeleteSecret secretName isTrue) (.deleteSecret secretName isTrue)
    match err with
    | some e => goPanic ("failed to force delete secret, " ++ e)
    | none => pure ()
    waitForDeletion env secretName fuel
  let err ← perform (env.CreateSecret secretName secret) (.createSecret secretName secret)
  match err with
  | some e => goPanic ("failed to create secret, " ++ e)
  | none => pure ()

/-- Go `GetRuntimeGroupConfiguration()`. -/
def GetRuntimeGroupConfiguration (env : Env σ) (flags : Flags) : Prog σ RuntimeConfiguration := do
  let filterData := QueryEscape "filter[name][eq]" ++ "=" ++ QueryEscape flags.runtime_group_name
  let get_runtime_groups :=
    flags.kong_api_endpoint ++ "/" ++ flags.api_version ++ "/runtime-groups" ++ "?" ++ filterData
  match NewRequest env.lib "GET" get_runtime_groups none with
  | .error err => do
    Println ("Error creating request: " ++ err)
    goPanic err
  | .ok req => do
    let req := setHeaders req flags.personal_access_token
    match ← clientDo env req with
    | .error err => do
      Println ("Error sending request: " ++ err)
      goPanic err
    | .ok resp =>
      match resp.Body.asRuntimeConfiguration with
      | .error err => do
        Println ("Error decoding data: " ++ err)
        goPanic err
      | .ok response => pure response

/-- Go `GenerateKeys()`. -/
def GenerateKeys (env : Env σ) (fuel : Nat) (flags : Flags) : Prog σ Unit := do
  let runtime_configuration ← GetRuntimeGroupConfiguration env flags
  match runtime_configuration.Data with
  | [] => goPanic "runtime error: index out of range [0] with length 0"
  | data0 :: _ => do
    Println ("Runtime Group ID:  " ++ data0.ID)
    match ← perform (env.GenerateKey 4096) (fun _ => .generateKey 4096) with
    | .error err => do
      Println ("Error generating private key: " ++ err)
      goPanic err
    | .ok privateKey => do
      let notBefore ← perform env.Now .now
      let now2 ← perform env.Now .now
      let template : Certificate :=
        { SerialNumber := 1
          Subject := { Organization := ["Kong"], CommonName := "Kong", Country := ["US"] }
          NotBefore := notBefore
          NotAfter := now2.AddDate 1 0 0
          KeyUsage := KeyUsageKeyEncipherment ||| KeyUsageDigitalSignature
          ExtKeyUsage := [ExtKeyUsageServerAuth]
          BasicConstraintsValid := true }
      match ← perform (env.CreateCertificate template template privateKey.PublicKey privateKey)
          (fun _ => .createCertificate template template) with
      | .error err => do
        Println ("Error creating certificate: " ++ err)
        goPanic err
      | .ok certBytes => do
        let certPEM := EncodeToMemory "CERTIFICATE" certBytes
        let privateKeyPEM := EncodeToMemory "RSA PRIVATE KEY" (MarshalPKCS1PrivateKey privateKey)
        let keyPair : Cert := { Certificate := certPEM }
        let jsonData := keyPair.json
        match NewRequest env.lib "POST"
            (flags.kong_api_endpoint ++ "/" ++ flags.api_version ++ "/runtime-groups/" ++ data0.ID ++
              "/dp-client-certificates") (some jsonData) with
        | .error err => Println ("Error creating request: " ++ err)
        | .ok req => do
          let req := setHeaders req flags.personal_access_token
          match ← clientDo env req with
          | .error err => Println ("Error sending request: " ++ err)
          | .ok _ => do
            let output : Output :=
              { ControlPlaneEndpoint := data0.Config.ControlPlaneEndpoint
                TelemetryEndpoint := data0.Config.TelemetryEndpoint
                Name := data0.Name
                AWSCertManagerCRT := data0.ID ++ "-cert"
                AWSCertManagerKey := data0.ID ++ "-key"
                PersonalAccessToken := data0.ID ++ "-pat-token" }
            CreateSecret env fuel output.AWSCertManagerCRT certPEM
            CreateSecret env fuel output.AWSCertManagerKey privateKeyPEM
            CreateSecret env fuel output.PersonalAccessToken flags.personal_access_token
            emit (.printJSON output.json)

def ClusterTypeHybrid : String := "CLUSTER_TYPE_HYBRID"
def ClusterTypeKiC : String := "CLUSTER_TYPE_K8S_INGRESS_CONTROLLER"
def ClusterTypeComposite : String := "CLUSTER_TYPE_COMPOSITE"

/-- Go `main()` of `main.go`, after the flags are parsed into `flags`. -/
def main (env : Env σ) (fuel : Nat) (flags : Flags) : Prog σ Unit := do
  if flags.cluster_type ≠ ClusterTypeHybrid ∧ flags.cluster_type ≠ ClusterTypeKiC ∧
      flags.cluster_type ≠ ClusterTypeComposite then
    logFatal ("Invalid cluster type, please use one of the following: CLUSTER_TYPE_HYBRID, " ++
      "CLUSTER_TYPE_K8S_INGRESS_CONTROLLER, CLUSTER_TYPE_COMPOSITE")
  let data : RunTimeGroupName :=
    { Name := flags.runtime_group_name, ClusterType := flags.cluster_type }
  let jsonData := data.json
  match NewRequest env.lib "POST"
      (flags.kong_api_endpoint ++ "/" ++ flags.api_version ++ "/runtime-groups") (some jsonData) with
  | .error err => Println ("Error creating request: " ++ err)
  | .ok req => do
    let req := setHeaders req flags.personal_access_token
    match ← clientDo env req with
    | .error err => Println ("Error sending request: " ++ err)
    | .ok resp => do
      if resp.StatusCode = 401 then
        logFatal "UnAuthorized, pls validate your PAT token and Konnect RBAC permissions"
      if resp.StatusCode = 409 then
        Println "Detected existing runtime group, skipping creation"
      if resp.StatusCode = 201 then
        Println "Runtime group created"
      GenerateKeys env fuel flags

end Main

namespace Cmd

/-- Modelled from the spec: `CreateSecret` of package `cmd`, which the `create-zone`
command calls, is defined in a file of the repository that is not among the sources.  It
is the SecretRotator of the specification (section 4.3): check by describe, create
directly when the name is not found, otherwise force-delete, poll describe every five
seconds until not found, then create; any other error is fatal.  That is the state
machine of `CreateSecret` in `main.go`, which stands in for it here. -/
def CreateSecret (env : Env σ) (fuel : Nat) (name secret : String) : Prog σ Unit :=
  Main.CreateSecret env fuel name secret

/-- Go `createGlobalControlPlane()`. -/
def createGlobalControlPlane (env : Env σ) (flags : Flags) : Prog σ GlobalControlPlane := do
  let globalControlPlane : GlobalControlPlane := {}
  match NewRequest env.lib "GET"
      (flags.kong_api_endpoint ++ "/" ++ flags.mesh_api_version ++ "/mesh/control-planes") none with
  | .error err => logFatal ("Error creating request:" ++ err)
  | .ok globelControlPlaneListReq => do
    let globelControlPlaneListReq := setHeaders globelControlPlaneListReq flags.personal_access_token
    match ← clientDo env globelControlPlaneListReq with
    | .error err => logFatal ("Error sending request:" ++ err)
    | .ok globelControlPlaneListResponse =>
      match globelControlPlaneListResponse.Body.asGlobalControlPlaneList with
      | .error err => logFatal ("Error decoding data:" ++ err)
      | .ok globalControlPlaneListResponse =>
        let found :=
          if globalControlPlaneListResponse.Data.length > 0 then
            globalControlPlaneListResponse.Data.find? fun globalControlPlane =>
              EqualFold env.lib globalControlPlane.Name flags.mesh_control_plane_name
          else none
        match found with
        | some globalControlPlane => do
          Println "Detected existing Global Control Plane, skipping creation"
          pure globalControlPlane
        | none =>
          let reqBody := [("name", flags.mesh_control_plane_name)]
          match NewRequest env.lib "POST"
              (flags.kong_api_endpoint ++ "/" ++ flags.mesh_api_version ++ "/mesh/control-planes")
              (some reqBody) with
          | .error err => logFatal ("Error creating request:" ++ err)
          | .ok req => do
            let req := setHeaders req flags.personal_access_token
            match ← clientDo env req with
            | .error err => logFatal ("Error sending request:" ++ err)
            | .ok resp => do
              if resp.StatusCode = 401 then
                logFatal "UnAuthorized, pls validate your PAT token and Konnect RBAC permissions"
              if resp.StatusCode = 201 then do
                Println "Global Control Plane created"
                match resp.Body.asGlobalControlPlane with
                | .error err => logFatal ("Error decoding data:" ++ err)
                | .ok decoded => pure decoded
              else pure globalControlPlane

/-- Go `createMeshZone(globalControlPlane)`. -/
def createMeshZone (env : Env σ) (flags : Flags) (globalControlPlane : GlobalControlPlane) :
    Prog σ MeshZone := do
  let meshZoneResponse : MeshZone := {}
  let reqBody := [("name", flags.mesh_zone_name)]
  match NewRequest env.lib "POST"
      (flags.kong_api_endpoint ++ "/" ++ flags.mesh_api_version ++ "/mesh/control-planes/" ++
        globalControlPlane.ID ++ "/api/provision-zone") (some reqBody) with
  | .error err => logFatal ("Error creating request:" ++ err)
  | .ok req => do
    let req := setHeaders req flags.personal_access_token
    match ← clientDo env req with
    | .error err => logFatal ("Error sending request:" ++ err)
    | .ok resp => do
      if resp.StatusCode = 401 then
        logFatal "UnAuthorized, pls validate your PAT token and Konnect RBAC permissions"
      if resp.StatusCode = 409 then
        logFatal ("Detected an existing Zone with the same name, skipping creation. " ++
          "Stopping execution. The implementation for this is pending. " ++
          "Please create the Secrets Manually.")
      if resp.StatusCode = 200 then do
        Println "Zone created"
        match resp.Body.asCreateMeshZoneResponse with
        | .error err => logFatal ("Error decoding data:" ++ err)
        | .ok createMeshZoneResponse =>
          pure { meshZoneResponse with
                 Token := createMeshZoneResponse.Token, Name := flags.mesh_zone_name }
      else pure meshZoneResponse

/-- The `Run` function of `createMeshZoneCmd` (the `create-zone` command). -/
def createMeshZoneCmd.Run (env : Env σ) (fuel : Nat) (flags : Flags) : Prog σ Unit := do
  let createGlobalControlPlaneResponse ← createGlobalControlPlane env flags
  let createMeshZoneResponse ← createMeshZone env flags createGlobalControlPlaneResponse
  CreateSecret env fuel (createGlobalControlPlaneResponse.ID ++ "-" ++ createMeshZoneResponse.Name)
    createMeshZoneResponse.Token
  let output : CreateMeshZoneOutput :=
    { GlobalControlPlaneName := createGlobalControlPlaneResponse.Name
      GlobalControlPlaneId := createGlobalControlPlaneResponse.ID
      ZoneName := createMeshZoneResponse.Name
      ZoneTokenSecretName :=
        createGlobalControlPlaneResponse.ID ++ "-" ++ createMeshZoneResponse.Name }
  emit (.printJSON output.json)

end Cmd

/-! ## A concrete world: scripted remote answers and a secret store -/

/-- A record of the secret store. -/
structure SecretRecord where
  name : String
  value : String
  deriving DecidableEq, Repr

/-- The secret store.  Deletion is asynchronous: a force-deleted name stays visible to
`lag` further describe calls and is purged by the one after them.  `scheduled n` is the
number of describe calls that will still see the name `n`, when it is being deleted. -/
structure Store where
  records : List SecretRecord := []
  scheduled : String → Option Nat := fun _ => none
  lag : Nat := 0

/-- The error text of a describe call for a name the store does not hold. -/
def notFoundError : String :=
  "operation error Secrets Manager: DescribeSecret, https response error StatusCode: 400, " ++
    "ResourceNotFoundException: Secrets Manager cannot find the specified secret."

/-- The error text of a create call for a name the store still holds. -/
def existsError : String :=
  "operation error Secrets Manager: CreateSecret, https response error StatusCode: 400, " ++
    "ResourceExistsException: The operation failed because the secret already exists."

namespace Store

/-- Whether the store holds a record named `n`. -/
def has (s : Store) (n : String) : Bool := s.records.any fun r => r.name == n

/-- The store without the records named `n`. -/
def purge (s : Store) (n : String) : Store :=
  { s with records := s.records.filter (fun r => r.name != n)
           scheduled := Function.update s.scheduled n none }

/-- Describe by name: not found when no record has the name; a name being deleted is
seen until its count runs out, and the describe call after that purges it. -/
def describe (n : String) (s : Store) : Option String × Store :=
  if s.has n then
    match s.scheduled n with
    | none => (none, s)
    | some 0 => (some notFoundError, s.purge n)
    | some (c + 1) => (none, { s with scheduled := Function.update s.scheduled n (some c) })
  else (some notFoundError, s)

/-- Delete by name.  A forced deletion schedules the purge; without force the secret
stays in its recovery window. -/
def delete (n : String) (force : Bool) (s : Store) : Option String × Store :=
  if s.has n && force then
    (none, { s with scheduled := Function.update s.scheduled n (some ((s.scheduled n).getD s.lag)) })
  else (none, s)

/-- Create a record; refused while a record of that name is held. -/
def create (n v : String) (s : Store) : Option String × Store :=
  if s.has n then (some existsError, s)
  else (none, { s with records := s.records ++ [⟨n, v⟩] })

end Store

/-- One scripted answer of the outside world. -/
inductive Reply where
  | http (r : Except String Response)
  | key (r : Except String PrivateKey)
  | cert (r : Except String Bytes)
  | time (t : Time)

/-- The concrete world: the answers the remote API, the random source and the clock
will give, in order, and the secret store. -/
structure World where
  replies : List Reply := []
  store : Store := {}

namespace World

/-- The environment over a `World`: HTTP, key, certificate and clock calls take the next
scripted reply (and fail when the next reply is of another kind); secret calls go to
the store; the configuration always loads. -/
def env (lib : Lib) : Env World where
  lib := lib
  Do := fun _ w =>
    match w.replies with
    | .http r :: rest => (r, { w with replies := rest })
    | _ => (.error "connection refused", w)
  LoadDefaultConfig := fun w => (none, w)
  DescribeSecret := fun n w => ((w.store.describe n).1, { w with store := (w.store.describe n).2 })
  DeleteSecret := fun n force w =>
    ((w.store.delete n force).1, { w with store := (w.store.delete n force).2 })
  CreateSecret := fun n v w => ((w.store.create n v).1, { w with store := (w.store.create n v).2 })
  Sleep := fun _ w => w
  Now := fun w =>
    match w.replies with
    | .time t :: rest => (t, { w with replies := rest })
    | _ => (⟨0⟩, w)
  GenerateKey := fun _ w =>
    match w.replies with
    | .key r :: rest => (r, { w with replies := rest })
    | _ => (.error "no random source", w)
  CreateCertificate := fun _ _ _ _ w =>
    match w.replies with
    | .cert r :: rest => (r, { w with replies := rest })
    | _ => (.error "no random source", w)

end World

/-- The standard-library parameters used at concrete inputs: ASCII case folding only,
every URL parses. -/
def asciiLib : Lib where
  foldReaches := fun _ _ => false
  urlParseError := fun _ => none

/-! ## Reading traces -/

/-- Calls to the secret store. -/
def Event.isSecretCall : Event → Bool
  | .describeSecret _ _ => true
  | .deleteSecret _ _ _ => true
  | .createSecret _ _ _ => true
  | _ => false

/-- Create calls to the secret store. -/
def Event.isCreateSecret : Event → Bool
  | .createSecret _ _ _ => true
  | _ => false

/-- Delete calls to the secret store. -/
def Event.isDeleteSecret : Event → Bool
  | .deleteSecret _ _ _ => true
  | _ => false

/-- Describe calls to the secret store. -/
def Event.isDescribeSecret : Event → Bool
  | .describeSecret _ _ => true
  | _ => false

/-- HTTP calls with method POST. -/
def Event.isPost : Event → Bool
  | .httpDo req _ => req.Method == "POST"
  | _ => false

/-- Entries into `CreateSecret`. -/
def Event.isCreateSecretCall : Event → Bool
  | .call fn _ => fn == "CreateSecret"
  | _ => false

/-- Summaries printed as JSON. -/
def Event.isPrintJSON : Event → Bool
  | .printJSON _ => true
  | _ => false

/-- Put events in front of the trace of a run. -/
def Run.after {σ α : Type} (evs : List Event) (r : Run σ α) : Run σ α :=
  ⟨r.outcome, r.state, evs ++ r.trace⟩

/-- A describe call answered with an error whose text lacks `ResourceNotFoundException`:
the test by which `CreateSecret` (`main.go`, lines 296 and 322) takes a describe error
for fatal.  It looks at the text of the error, not at its class. -/
def Event.isUnmarkedDescribeError : Event → Bool
  | .describeSecret _ (some e) => !Contains e "ResourceNotFoundException"
  | _ => false

/-- The events of one round of the polling loop with describe result `err`. -/
def pollRound (n : String) (err : Option String) : List Event :=
  [.sleep (5 * nanosPerSecond), .describeSecret n err]

/-- The last step of `CreateSecret`: the create call and the check of its error. -/
def createStep {σ : Type} (env : Env σ) (name secret : String) : Prog σ Unit := fun s =>
  ⟨match (env.CreateSecret name secret s).1 with
    | some e => .panicked ("failed to create secret, " ++ e)
    | none => .returned (),
   (env.CreateSecret name secret s).2,
   [.createSecret name secret (env.CreateSecret name secret s).1]⟩

/-- An environment whose secret store refuses every describe call for lack of
permission; everything else is as in `World.env`. -/
def deniedEnv : Env World :=
  { World.env asciiLib with
    DescribeSecret := fun _ w =>
      (some "operation error Secrets Manager: DescribeSecret, AccessDeniedException", w) }

/-- An error of the Secrets Manager API as the SDK hands it to the program: the operation,
the error code, which names the class of the error, and the message of the service. -/
structure ApiError where
  operation : String
  code : String
  message : String
  deriving DecidableEq, Repr

namespace ApiError

/-- Go `err.Error()` of an API error: the code and the message, behind the operation. -/
def Error (e : ApiError) : String :=
  "operation error Secrets Manager: " ++ e.operation ++
    ", https response error StatusCode: 400, " ++ e.code ++ ": " ++ e.message

/-- The not-found error class of the specification: the error code of the service is
`ResourceNotFoundException`. -/
def isNotFound (e : ApiError) : Bool := e.code == "ResourceNotFoundException"

end ApiError

/-- The service denies access to a secret whose name contains the text
`ResourceNotFoundException`; the message of the denial quotes the name. -/
def deniedOnMarkedName : ApiError :=
  { operation := "DescribeSecret", code := "AccessDeniedException",
    message := "User is not authorized to perform secretsmanager:DescribeSecret " ++
      "on resource ResourceNotFoundException-cert" }

/-- An environment whose secret store answers every describe call with the
access-denied error `deniedOnMarkedName`; everything else is as in `World.env`. -/
def markedDenialEnv : Env World :=
  { World.env asciiLib with
    DescribeSecret := fun _ w => (some deniedOnMarkedName.Error, w) }

/-! ## Requests of the create-zone flow, and JSON bodies -/

namespace Cmd

/-- The URL of the control-plane collection. -/
def controlPlanesURL (flags : Flags) : String :=
  flags.kong_api_endpoint ++ "/" ++ flags.mesh_api_version ++ "/mesh/control-planes"

/-- The list request of `createGlobalControlPlane`. -/
def listRequest (flags : Flags) : Request :=
  setHeaders { Method := "GET", URL := controlPlanesURL flags, Body := none }
    flags.personal_access_token

/-- The create request of `createGlobalControlPlane`. -/
def createRequest (flags : Flags) : Request :=
  setHeaders { Method := "POST", URL := controlPlanesURL flags,
               Body := some [("name", flags.mesh_control_plane_name)] }
    flags.personal_access_token

/-- The URL of the zone provisioning call under the control plane with id `id`. -/
def provisionZoneURL (flags : Flags) (id : String) : String :=
  flags.kong_api_endpoint ++ "/" ++ flags.mesh_api_version ++ "/mesh/control-planes/" ++ id ++
    "/api/provision-zone"

/-- The provisioning request of `createMeshZone`. -/
def zoneRequest (flags : Flags) (id : String) : Request :=
  setHeaders { Method := "POST", URL := provisionZoneURL flags id,
               Body := some [("name", flags.mesh_zone_name)] }
    flags.personal_access_token

end Cmd

/-- A JSON object none of whose keys is a field of the program's response types, such as
an error message: every decoder succeeds and leaves its target at the zero value. -/
def jsonOther : Body where
  asGlobalControlPlaneList := .ok {}
  asGlobalControlPlane := .ok {}
  asCreateMeshZoneResponse := .ok {}
  asRuntimeConfiguration := .ok {}

/-- The JSON of a control-plane list. -/
def jsonControlPlaneList (l : Cmd.GlobalControlPlaneList) : Body :=
  { jsonOther with asGlobalControlPlaneList := .ok l }

/-- The JSON of one control plane. -/
def jsonControlPlane (c : Cmd.GlobalControlPlane) : Body :=
  { jsonOther with asGlobalControlPlane := .ok c }

/-- The JSON of a zone provisioning answer. -/
def jsonZoneToken (token : String) : Body :=
  { jsonOther with asCreateMeshZoneResponse := .ok { Token := token } }

/-- The JSON of a runtime-group list. -/
def jsonRuntimeConfiguration (c : Main.RuntimeConfiguration) : Body :=
  { jsonOther with asRuntimeConfiguration := .ok c }

/-- A remote that lists three control planes, the second and third of which are named
`Default` and `default`. -/
def threePlanes : Cmd.GlobalControlPlaneList :=
  { Data := [{ ID := "cp-1", Name := "mesh" }, { ID := "cp-2", Name := "Default" },
             { ID := "cp-3", Name := "default" }] }

/-- A world whose remote answers one call, with status 200 and the list `threePlanes`. -/
def listingWorld : World :=
  { replies := [.http (.ok ⟨200, jsonControlPlaneList threePlanes⟩)] }

/-- A remote that lists one control plane, named `default`. -/
def lowerPlane : Cmd.GlobalControlPlaneList :=
  { Data := [{ ID := "cp-9", Name := "default" }] }

/-- A world whose remote answers one call, with status 200 and the list `lowerPlane`. -/
def lowerWorld : World :=
  { replies := [.http (.ok ⟨200, jsonControlPlaneList lowerPlane⟩)] }

/-- A world whose remote has no control plane, answers the create call with 201 and the
resource `cp-7` named `default`, and lists that resource afterwards. -/
def upsertWorld : World :=
  { replies := [.http (.ok ⟨200, jsonControlPlaneList {}⟩),
                .http (.ok ⟨201, jsonControlPlane { ID := "cp-7", Name := "default" }⟩),
                .http (.ok ⟨200, jsonControlPlaneList
                  { Data := [{ ID := "cp-7", Name := "default" }] }⟩)] }

/-- A world for the create-zone flow: the remote lists no control plane, creates `cp-7`
named `default`, and provisions the zone with the token `tok-1`; the store is empty. -/
def zoneWorld : World :=
  { replies := [.http (.ok ⟨200, jsonControlPlaneList {}⟩),
                .http (.ok ⟨201, jsonControlPlane { ID := "cp-7", Name := "default" }⟩),
                .http (.ok ⟨200, jsonZoneToken "tok-1"⟩)] }

/-- As `zoneWorld`, but the zone provisioning call is answered with status 500 and an
error message. -/
def zoneErrorWorld : World :=
  { replies := [.http (.ok ⟨200, jsonControlPlaneList {}⟩),
                .http (.ok ⟨201, jsonControlPlane { ID := "cp-7", Name := "default" }⟩),
                .http (.ok ⟨500, jsonOther⟩)] }

/-- The flags of the end-to-end scenario: control plane `default`, zone `z1`. -/
def zoneFlags : Cmd.Flags :=
  { mesh_control_plane_name := "default", mesh_zone_name := "z1" }

/-! ## Requests of the runtime-group flow -/

namespace Main

/-- The create request of `main`. -/
def createGroupRequest (flags : Flags) : Request :=
  setHeaders { Method := "POST",
               URL := flags.kong_api_endpoint ++ "/" ++ flags.api_version ++ "/runtime-groups",
               Body := some (RunTimeGroupName.json
                 { Name := flags.runtime_group_name, ClusterType := flags.cluster_type }) }
    flags.personal_access_token

/-- The URL of the lookup by name of `GetRuntimeGroupConfiguration`. -/
def lookupURL (flags : Flags) : String :=
  flags.kong_api_endpoint ++ "/" ++ flags.api_version ++ "/runtime-groups" ++ "?" ++
    (QueryEscape "filter[name][eq]" ++ "=" ++ QueryEscape flags.runtime_group_name)

/-- The lookup request of `GetRuntimeGroupConfiguration`. -/
def lookupRequest (flags : Flags) : Request :=
  setHeaders { Method := "GET", URL := lookupURL flags, Body := none } flags.personal_access_token

/-- The URL of the client-certificate upload for the runtime group with id `id`. -/
def uploadURL (flags : Flags) (id : String) : String :=
  flags.kong_api_endpoint ++ "/" ++ flags.api_version ++ "/runtime-groups/" ++ id ++
    "/dp-client-certificates"

/-- The client-certificate upload request of `GenerateKeys`. -/
def uploadRequest (flags : Flags) (id certPEM : String) : Request :=
  setHeaders { Method := "POST", URL := uploadURL flags id,
               Body := some (Cert.json { Certificate := certPEM }) }
    flags.personal_access_token

/-- The certificate template of `GenerateKeys` for the two clock readings. -/
def template (notBefore now2 : Time) : Certificate :=
  { SerialNumber := 1
    Subject := { Organization := ["Kong"], CommonName := "Kong", Country := ["US"] }
    NotBefore := notBefore
    NotAfter := now2.AddDate 1 0 0
    KeyUsage := KeyUsageKeyEncipherment ||| KeyUsageDigitalSignature
    ExtKeyUsage := [ExtKeyUsageServerAuth]
    BasicConstraintsValid := true }

end Main

/-- HTTP calls. -/
def Event.isHttp : Event → Bool
  | .httpDo _ _ => true
  | _ => false

/-- Certificate creations. -/
def Event.isCreateCertificate : Event → Bool
  | .createCertificate _ _ => true
  | _ => false

/-- The validity window of the template of a certificate creation. -/
def Event.validity : Event → Option (Time × Time)
  | .createCertificate template _ => some (template.NotBefore, template.NotAfter)
  | _ => none

/-- The runtime group `rg-1`, named `default`. -/
def group1 : Main.RuntimeGroup :=
  { ID := "rg-1", Name := "default",
    Config := { ControlPlaneEndpoint := "https://cp.example", TelemetryEndpoint := "https://tp.example",
                ClusterType := "CLUSTER_TYPE_HYBRID" } }

/-- A small stand-in for a generated private key. -/
def key1 : PrivateKey := { PublicKey := ⟨[48, 1]⟩, pkcs1 := [48, 2] }

/-- 2026-11-02T12:34:56Z. -/
def instant1 : Time := ⟨1793622896000000000⟩

/-- 1500 nanoseconds after `instant1`. -/
def instant2 : Time := ⟨1793622896000001500⟩

/-- The answers of the runtime-group flow up to the certificate upload, which is
answered by `upload`: the group is created (201), the lookup returns `group1`, the key
and the certificate are generated, the clock reads `instant1` and then `instant2`. -/
def runtimeReplies (upload : Except String Response) : List Reply :=
  [.http (.ok ⟨201, jsonOther⟩),
   .http (.ok ⟨200, jsonRuntimeConfiguration { Data := [group1] }⟩),
   .key (.ok key1), .time instant1, .time instant2, .cert (.ok [48, 3]),
   .http upload]

/-- The runtime-group flow with every call answered favourably; the store is empty. -/
def runtimeWorld : World := { replies := runtimeReplies (.ok ⟨201, jsonOther⟩) }

/-- The runtime-group flow with the certificate upload answered by status 401. -/
def uploadDeniedWorld : World := { replies := runtimeReplies (.ok ⟨401, jsonOther⟩) }

/-- The runtime-group flow with the certificate upload failing in transport. -/
def uploadFailedWorld : World := { replies := runtimeReplies (.error "connection reset") }

/-- The create-zone flow with the list call answered by status 401 and an error
message, the later calls answered favourably. -/
def listDeniedWorld : World :=
  { replies := [.http (.ok ⟨401, jsonOther⟩),
                .http (.ok ⟨201, jsonControlPlane { ID := "cp-7", Name := "default" }⟩),
                .http (.ok ⟨200, jsonZoneToken "tok-1"⟩)] }

/-- The flags of the runtime-group examples. -/
def runtimeFlags : Main.Flags := { personal_access_token := "kpat_1" }

/-- The world in which `GenerateKeys` starts after `main` has created the group, with the
certificate upload answered by `upload` and the store `store`. -/
def keysWorld (upload : Except String Response) (store : Store) : World :=
  { replies := (runtimeReplies upload).tail, store := store }

/-- The serial number of the template of a certificate creation. -/
def Event.serial : Event → Option Int
  | .createCertificate template _ => some template.SerialNumber
  | _ => none

/-- A program that never creates a certificate. -/
def IssuesNone {σ α : Type} (m : Prog σ α) : Prop :=
  ∀ s, (m s).trace.filterMap Event.serial = []

/-- A program that creates at most one certificate, with serial number 1. -/
def IssuesSerialOne {σ α : Type} (m : Prog σ α) : Prop :=
  ∀ s, (m s).trace.filterMap Event.serial = [] ∨ (m s).trace.filterMap Event.serial = [1]

/-- The world of two runs of `GenerateKeys`, one after the other, each with all its
calls answered favourably; the store is empty at the start. -/
def twoRunsWorld : World :=
  { replies := (runtimeReplies (.ok ⟨201, jsonOther⟩)).tail ++
      (runtimeReplies (.ok ⟨201, jsonOther⟩)).tail }

/-! # Theorems -/

/-! ## Running programs step by step -/

section Steps

variable {σ α β : Type}

@[simp] theorem Run.after_outcome (evs : List Event) (r : Run σ α) :
    (r.after evs).outcome = r.outcome := rfl

@[simp] theorem Run.after_state (evs : List Event) (r : Run σ α) :
    (r.after evs).state = r.state := rfl

@[simp] theorem Run.after_trace (evs : List Event) (r : Run σ α) :
    (r.after evs).trace = evs ++ r.trace := rfl

@[simp] theorem Prog.bind_eq (m : Prog σ α) (f : α → Prog σ β) : (m >>= f) = m.andThen f := rfl

@[simp] theorem Prog.pure_eq (a : α) : (pure a : Prog σ α) = ret a := rfl

@[simp] theorem Prog.ret_apply (a : α) (s : σ) : (ret a : Prog σ α) s = ⟨.returned a, s, []⟩ := rfl

@[simp] theorem Prog.goPanic_apply (msg : String) (s : σ) :
    (goPanic msg : Prog σ α) s = ⟨.panicked msg, s, []⟩ := rfl

@[simp] theorem Prog.logFatal_apply (msg : String) (s : σ) :
    (logFatal msg : Prog σ α) s = ⟨.fatal msg, s, []⟩ := rfl

@[simp] theorem Prog.noFuel_apply (s : σ) : (noFuel : Prog σ α) s = ⟨.outOfFuel, s, []⟩ := rfl

@[simp] theorem Prog.perform_apply (op : σ → α × σ) (ev : α → Event) (s : σ) :
    perform op ev s = ⟨.returned (op s).1, (op s).2, [ev (op s).1]⟩ := rfl

@[simp] theorem Prog.emit_apply (e : Event) (s : σ) :
    (emit e : Prog σ Unit) s = ⟨.returned (), s, [e]⟩ := rfl

@[simp] theorem Prog.Println_apply (line : String) (s : σ) :
    (Println line : Prog σ Unit) s = ⟨.returned (), s, [.println line]⟩ := rfl

/-- Sequencing, by the outcome of the first program. -/
theorem Prog.andThen_apply (m : Prog σ α) (f : α → Prog σ β) (s : σ) :
    m.andThen f s =
      match (m s).outcome with
      | .returned a => (f a (m s).state).after (m s).trace
      | .fatal msg => ⟨.fatal msg, (m s).state, (m s).trace⟩
      | .panicked msg => ⟨.panicked msg, (m s).state, (m s).trace⟩
      | .outOfFuel => ⟨.outOfFuel, (m s).state, (m s).trace⟩ := by
  simp only [andThen, Run.after]

@[simp] theorem Prog.ret_andThen (a : α) (f : α → Prog σ β) (s : σ) :
    (ret a).andThen f s = f a s := by
  simp [andThen, ret]

@[simp] theorem Prog.perform_andThen (op : σ → α × σ) (ev : α → Event) (f : α → Prog σ β)
    (s : σ) : (perform op ev).andThen f s = (f (op s).1 (op s).2).after [ev (op s).1] := by
  simp [andThen, perform, Run.after]

@[simp] theorem Prog.emit_andThen (e : Event) (f : Unit → Prog σ β) (s : σ) :
    (emit e).andThen f s = (f () s).after [e] := by
  simp [andThen, emit, Run.after]

@[simp] theorem Prog.Println_andThen (line : String) (f : Unit → Prog σ β) (s : σ) :
    (Println line).andThen f s = (f () s).after [.println line] := by
  simp [Println]

@[simp] theorem Prog.goPanic_andThen (msg : String) (f : α → Prog σ β) (s : σ) :
    (goPanic msg).andThen f s = ⟨.panicked msg, s, []⟩ := by
  simp [andThen, goPanic]

@[simp] theorem Prog.logFatal_andThen (msg : String) (f : α → Prog σ β) (s : σ) :
    (logFatal msg).andThen f s = ⟨.fatal msg, s, []⟩ := by
  simp [andThen, logFatal]

@[simp] theorem Prog.noFuel_andThen (f : α → Prog σ β) (s : σ) :
    (noFuel : Prog σ α).andThen f s = ⟨.outOfFuel, s, []⟩ := by
  simp [andThen, noFuel]

end Steps

/-! ## The polling loop and `CreateSecret` in any environment -/

section Rotation

variable {σ : Type}

theorem waitForDeletion_succ (env : Env σ) (n : String) (fuel : Nat) (s : σ) :
    Main.waitForDeletion env n (fuel + 1) s =
      match (env.DescribeSecret n (env.Sleep (5 * nanosPerSecond) s)).1 with
      | some e =>
        if Contains e "ResourceNotFoundException" then
          ⟨.returned (), (env.DescribeSecret n (env.Sleep (5 * nanosPerSecond) s)).2,
            pollRound n (some e)⟩
        else
          ⟨.panicked ("failed to describe secret, " ++ e),
            (env.DescribeSecret n (env.Sleep (5 * nanosPerSecond) s)).2, pollRound n (some e)⟩
      | none =>
        (Main.waitForDeletion env n fuel
          (env.DescribeSecret n (env.Sleep (5 * nanosPerSecond) s)).2).after (pollRound n none) := by
  simp only [Main.waitForDeletion, Prog.bind_eq, Prog.perform_andThen, pollRound, Run.after]
  cases h : (env.DescribeSecret n (env.Sleep (5 * nanosPerSecond) s)).1 with
  | none => simp
  | some e =>
    by_cases hc : Contains e "ResourceNotFoundException" = true
    · simp [hc]
    · simp [hc]

/-- The polling loop issues neither a create nor a delete call. -/
theorem waitForDeletion_calls (env : Env σ) (n : String) :
    ∀ (fuel : Nat) (s : σ), ∀ ev ∈ (Main.waitForDeletion env n fuel s).trace,
      ev.isCreateSecret = false ∧ ev.isDeleteSecret = false := by
  intro fuel
  induction fuel with
  | zero => intro s ev h; simp [Main.waitForDeletion] at h
  | succ fuel ih =>
    intro s ev h
    rw [waitForDeletion_succ] at h
    split at h
    · split at h <;>
        · simp [pollRound] at h
          rcases h with h | h <;> subst h <;> simp [Event.isCreateSecret, Event.isDeleteSecret]
    · simp [pollRound] at h
      rcases h with h | h | h
      · subst h; simp [Event.isCreateSecret, Event.isDeleteSecret]
      · subst h; simp [Event.isCreateSecret, Event.isDeleteSecret]
      · exact ih _ ev h

/-- A poll answered with an error whose text lacks the not-found marker ends the loop in
a panic. -/
theorem waitForDeletion_unmarked (env : Env σ) (n : String) :
    ∀ (fuel : Nat) (s : σ), (∃ ev ∈ (Main.waitForDeletion env n fuel s).trace,
      ev.isUnmarkedDescribeError = true) →
      ∃ msg, (Main.waitForDeletion env n fuel s).outcome = .panicked msg := by
  intro fuel
  induction fuel with
  | zero => intro s h; simp [Main.waitForDeletion] at h
  | succ fuel ih =>
    intro s h
    rw [waitForDeletion_succ] at h ⊢
    split at h
    · rename_i e he
      by_cases hc : Contains e "ResourceNotFoundException" = true
      · simp [hc, pollRound, Event.isUnmarkedDescribeError] at h
      · simp [hc]
    · rename_i he
      simp only [Run.after_trace, Run.after_outcome] at h ⊢
      obtain ⟨ev, hev, hbad⟩ := h
      simp [pollRound] at hev
      rcases hev with h | h | h
      · subst h; simp [Event.isUnmarkedDescribeError] at hbad
      · subst h; simp [Event.isUnmarkedDescribeError] at hbad
      · exact ih _ ⟨ev, h, hbad⟩

theorem createStep_eq (env : Env σ) (name secret : String) (g : Option String → Prog σ Unit)
    (hsome : ∀ e, g (some e) = goPanic ("failed to create secret, " ++ e))
    (hnone : g none = ret ()) :
    (perform (env.CreateSecret name secret) (.createSecret name secret)).andThen g =
      createStep env name secret := by
  funext s
  simp only [Prog.perform_andThen, createStep, Run.after]
  cases (env.CreateSecret name secret s).1 <;> simp [hsome, hnone]

theorem CreateSecret_config_error (env : Env σ) (fuel : Nat) (name secret : String) (s : σ)
    (e : String) (h1 : (env.LoadDefaultConfig s).1 = some e) :
    Main.CreateSecret env fuel name secret s =
      ⟨.panicked ("failed to load AWS config, " ++ e), (env.LoadDefaultConfig s).2,
        [.call "CreateSecret" [name, secret], .loadDefaultConfig (some e)]⟩ := by
  simp [Main.CreateSecret, h1, Run.after]

theorem CreateSecret_absent (env : Env σ) (fuel : Nat) (name secret : String) (s : σ)
    (e : String) (h1 : (env.LoadDefaultConfig s).1 = none)
    (h2 : (env.DescribeSecret name (env.LoadDefaultConfig s).2).1 = some e)
    (hc : Contains e "ResourceNotFoundException" = true) :
    Main.CreateSecret env fuel name secret s =
      (createStep env name secret (env.DescribeSecret name (env.LoadDefaultConfig s).2).2).after
        [.call "CreateSecret" [name, secret], .loadDefaultConfig none,
          .describeSecret name (some e)] := by
  simp only [Main.CreateSecret, Prog.bind_eq, Prog.pure_eq]
  rw [createStep_eq env name secret _ (fun _ => rfl) rfl]
  simp [h1, h2, hc, Run.after]

theorem CreateSecret_describe_error (env : Env σ) (fuel : Nat) (name secret : String) (s : σ)
    (e : String) (h1 : (env.LoadDefaultConfig s).1 = none)
    (h2 : (env.DescribeSecret name (env.LoadDefaultConfig s).2).1 = some e)
    (hc : Contains e "ResourceNotFoundException" = false) :
    Main.CreateSecret env fuel name secret s =
      ⟨.panicked ("failed to describe secret, " ++ e),
        (env.DescribeSecret name (env.LoadDefaultConfig s).2).2,
        [.call "CreateSecret" [name, secret], .loadDefaultConfig none,
          .describeSecret name (some e)]⟩ := by
  simp [Main.CreateSecret, h1, h2, hc, Run.after]

theorem CreateSecret_delete_error (env : Env σ) (fuel : Nat) (name secret : String) (s : σ)
    (e : String) (h1 : (env.LoadDefaultConfig s).1 = none)
    (h2 : (env.DescribeSecret name (env.LoadDefaultConfig s).2).1 = none)
    (h3 : (env.DeleteSecret name true (env.DescribeSecret name (env.LoadDefaultConfig s).2).2).1 =
      some e) :
    Main.CreateSecret env fuel name secret s =
      ⟨.panicked ("failed to force delete secret, " ++ e),
        (env.DeleteSecret name true (env.DescribeSecret name (env.LoadDefaultConfig s).2).2).2,
        [.call "CreateSecret" [name, secret], .loadDefaultConfig none,
          .describeSecret name none, .deleteSecret name true (some e)]⟩ := by
  simp [Main.CreateSecret, h1, h2, h3, Run.after]

theorem CreateSecret_present (env : Env σ) (fuel : Nat) (name secret : String) (s : σ)
    (h1 : (env.LoadDefaultConfig s).1 = none)
    (h2 : (env.DescribeSecret name (env.LoadDefaultConfig s).2).1 = none)
    (h3 : (env.DeleteSecret name true (env.DescribeSecret name (env.LoadDefaultConfig s).2).2).1 =
      none) :
    Main.CreateSecret env fuel name secret s =
      ((Main.waitForDeletion env name fuel).andThen (fun _ => createStep env name secret)
        (env.DeleteSecret name true (env.DescribeSecret name (env.LoadDefaultConfig s).2).2).2).after
        [.call "CreateSecret" [name, secret], .loadDefaultConfig none,
          .describeSecret name none, .deleteSecret name true none] := by
  simp only [Main.CreateSecret, Prog.bind_eq, Prog.pure_eq]
  rw [createStep_eq env name secret _ (fun _ => rfl) rfl]
  simp only [Prog.emit_andThen, Prog.perform_andThen, h1, h2, h3, Prog.ret_andThen]
  simp only [Prog.andThen_apply]
  cases (Main.waitForDeletion env name fuel
    (env.DeleteSecret name true (env.DescribeSecret name (env.LoadDefaultConfig s).2).2).2).outcome
  all_goals simp [Run.after]

end Rotation

/-! ## `CreateSecret` on the store -/

theorem contains_notFoundError : Contains notFoundError "ResourceNotFoundException" = true := by
  decide

section WorldSteps

variable (lib : Lib) (w : World)

@[simp] theorem World.env_lib : (World.env lib).lib = lib := rfl

@[simp] theorem World.env_LoadDefaultConfig : (World.env lib).LoadDefaultConfig w = (none, w) := rfl

@[simp] theorem World.env_DescribeSecret (n : String) :
    (World.env lib).DescribeSecret n w =
      ((w.store.describe n).1, { w with store := (w.store.describe n).2 }) := rfl

@[simp] theorem World.env_DeleteSecret (n : String) (force : Bool) :
    (World.env lib).DeleteSecret n force w =
      ((w.store.delete n force).1, { w with store := (w.store.delete n force).2 }) := rfl

@[simp] theorem World.env_CreateSecret (n v : String) :
    (World.env lib).CreateSecret n v w =
      ((w.store.create n v).1, { w with store := (w.store.create n v).2 }) := rfl

@[simp] theorem World.env_Sleep (d : Nat) : (World.env lib).Sleep d w = w := rfl

end WorldSteps

theorem Store.has_purge (s : Store) (n : String) : (s.purge n).has n = false := by
  simp [Store.has, Store.purge]

theorem Store.filter_purge (s : Store) (n : String) :
    (s.purge n).records.filter (fun r => r.name == n) = [] := by
  simp [Store.purge, List.filter_filter]

/-- On the store, the polling loop sees a name scheduled with count `c` for `c` rounds
and ends in the round after, with the name purged. -/
theorem waitForDeletion_world (lib : Lib) (n : String) :
    ∀ (c fuel : Nat) (w : World), w.store.has n = true → w.store.scheduled n = some c → c < fuel →
      Main.waitForDeletion (World.env lib) n fuel w =
        ⟨.returned (), { w with store := w.store.purge n },
          (List.replicate c (pollRound n none)).flatten ++ pollRound n (some notFoundError)⟩ := by
  intro c
  induction c with
  | zero =>
    intro fuel w hhas hs hf
    obtain ⟨fuel, rfl⟩ : ∃ f, fuel = f + 1 := ⟨fuel - 1, by omega⟩
    rw [waitForDeletion_succ]
    simp [Store.describe, hhas, hs, contains_notFoundError]
  | succ c ih =>
    intro fuel w hhas hs hf
    obtain ⟨fuel, rfl⟩ : ∃ f, fuel = f + 1 := ⟨fuel - 1, by omega⟩
    rw [waitForDeletion_succ]
    simp only [World.env_Sleep, World.env_DescribeSecret, Store.describe, hhas, hs, if_true]
    rw [ih fuel _ (by simpa [Store.has] using hhas) (by simp) (by omega)]
    simp [Run.after, Store.purge, List.replicate_succ]

theorem filter_pollRounds (n : String) (k : Nat) :
    ((List.replicate k (pollRound n none)).flatten).filter Event.isSecretCall =
      List.replicate k (.describeSecret n none) := by
  induction k with
  | zero => simp
  | succ k ih => simp [List.replicate_succ, ih, pollRound, Event.isSecretCall]


/-! ## Secret rotation (`CreateSecret`) -/

/-- C1.  Rotation with a pre-existing secret.  The store holds a record named `n` (not yet
being deleted) and purges a force-deleted name after `k = lag` further describe calls.
Then, with fuel for `k + 1` polling rounds, `CreateSecret n v2` returns; its calls to the
store are, in order, the initial describe, one delete with `ForceDeleteWithoutRecovery`
true, `k` polling describes that still see the secret, one polling describe answered
not-found, and one create with name `n` and value `v2`; and afterwards the store holds
exactly one record named `n`, with value `v2`. -/
theorem CreateSecret_rotates_existing (lib : Lib) (w : World) (n v2 : String) (fuel : Nat)
    (hrec : w.store.has n = true) (hsched : w.store.scheduled n = none)
    (hfuel : w.store.lag < fuel) :
    (Main.CreateSecret (World.env lib) fuel n v2 w).outcome = .returned () ∧
    (Main.CreateSecret (World.env lib) fuel n v2 w).trace.filter Event.isSecretCall =
      [.describeSecret n none, .deleteSecret n true none] ++
        List.replicate w.store.lag (.describeSecret n none) ++
        [.describeSecret n (some notFoundError), .createSecret n v2 none] ∧
    (Main.CreateSecret (World.env lib) fuel n v2 w).state.store.records.filter
      (fun r => r.name == n) = [⟨n, v2⟩] := by
  have h2 : ((World.env lib).DescribeSecret n ((World.env lib).LoadDefaultConfig w).2).1 = none := by
    simp [Store.describe, hrec, hsched]
  have h3 : ((World.env lib).DeleteSecret n true
      ((World.env lib).DescribeSecret n ((World.env lib).LoadDefaultConfig w).2).2).1 = none := by
    simp [Store.describe, Store.delete, hrec, hsched]
  rw [CreateSecret_present _ _ _ _ _ rfl h2 h3]
  simp only [World.env_LoadDefaultConfig, World.env_DescribeSecret, World.env_DeleteSecret,
    Store.describe, Store.delete, hrec, hsched, if_true, Bool.and_true, Option.getD_none]
  rw [Prog.andThen_apply, waitForDeletion_world lib n w.store.lag fuel _
    (by simpa [Store.has] using hrec) (by simp) hfuel]
  simp [createStep, Store.create, Store.has_purge, Store.filter_purge, filter_pollRounds,
    Event.isSecretCall, pollRound]

/-- Witness of C1: the secret `rg-cert` with value `old`, a store that needs two more
describe calls to purge a deleted name, rotation to the value `new`. -/
theorem CreateSecret_rotates_existing_witness :
    (Main.CreateSecret (World.env asciiLib) 3 "rg-cert" "new"
        { store := { records := [⟨"rg-cert", "old"⟩], lag := 2 } }).outcome = .returned () ∧
    (Main.CreateSecret (World.env asciiLib) 3 "rg-cert" "new"
        { store := { records := [⟨"rg-cert", "old"⟩], lag := 2 } }).trace.filter
        Event.isSecretCall =
      [.describeSecret "rg-cert" none, .deleteSecret "rg-cert" true none] ++
        List.replicate 2 (.describeSecret "rg-cert" none) ++
        [.describeSecret "rg-cert" (some notFoundError), .createSecret "rg-cert" "new" none] ∧
    (Main.CreateSecret (World.env asciiLib) 3 "rg-cert" "new"
        { store := { records := [⟨"rg-cert", "old"⟩], lag := 2 } }).state.store.records.filter
      (fun r => r.name == "rg-cert") = [⟨"rg-cert", "new"⟩] :=
  CreateSecret_rotates_existing asciiLib { store := { records := [⟨"rg-cert", "old"⟩], lag := 2 } }
    "rg-cert" "new" 3 (by decide) (by decide) (by decide)

/-- C2.  Rotation with no pre-existing secret, in any environment: when the configuration
loads and the initial describe of `n` is answered with a not-found error, the events of
`CreateSecret n v1` are exactly its entry, the configuration load, that one describe and
one create call with name `n` and value `v1`: no delete call and no polling describe. -/
theorem CreateSecret_absent_creates_once {σ : Type} (env : Env σ) (fuel : Nat) (n v1 : String)
    (s : σ) (e : String)
    (hcfg : (env.LoadDefaultConfig s).1 = none)
    (hd : (env.DescribeSecret n (env.LoadDefaultConfig s).2).1 = some e)
    (hnf : Contains e "ResourceNotFoundException" = true) :
    (Main.CreateSecret env fuel n v1 s).trace =
      [.call "CreateSecret" [n, v1], .loadDefaultConfig none, .describeSecret n (some e),
       .createSecret n v1
         (env.CreateSecret n v1 (env.DescribeSecret n (env.LoadDefaultConfig s).2).2).1] := by
  rw [CreateSecret_absent env fuel n v1 s e hcfg hd hnf]
  simp [createStep]

/-- Witness of C2: the empty store. -/
theorem CreateSecret_absent_creates_once_witness :
    (Main.CreateSecret (World.env asciiLib) 0 "rg-key" "pem" {}).trace =
      [.call "CreateSecret" ["rg-key", "pem"], .loadDefaultConfig none,
       .describeSecret "rg-key" (some notFoundError), .createSecret "rg-key" "pem" none] :=
  CreateSecret_absent_creates_once (World.env asciiLib) 0 "rg-key" "pem" {} notFoundError
    rfl rfl contains_notFoundError

section Upsert

variable {σ : Type}

theorem runeEqualFold_self (lib : Lib) (c : Char) : runeEqualFold lib c c = true := by
  simp [runeEqualFold]

theorem equalFoldRunes_self (lib : Lib) (l : List Char) : equalFoldRunes lib l l = true := by
  induction l with
  | nil => rfl
  | cons c l ih => simp [equalFoldRunes, runeEqualFold_self, ih]

theorem EqualFold_self (lib : Lib) (s : String) : EqualFold lib s s = true :=
  equalFoldRunes_self lib s.data

/-- The list call finds a match: it is returned and nothing else is called. -/
theorem createGlobalControlPlane_found (env : Env σ) (flags : Cmd.Flags) (s : σ)
    (resp : Response) (list : Cmd.GlobalControlPlaneList) (cp : Cmd.GlobalControlPlane)
    (hurl : env.lib.urlParseError (Cmd.controlPlanesURL flags) = none)
    (hdo : (env.Do (Cmd.listRequest flags) s).1 = .ok resp)
    (hdec : resp.Body.asGlobalControlPlaneList = .ok list)
    (hfind : list.Data.find? (fun c => EqualFold env.lib c.Name flags.mesh_control_plane_name) =
      some cp) :
    Cmd.createGlobalControlPlane env flags s =
      ⟨.returned cp, (env.Do (Cmd.listRequest flags) s).2,
        [.httpDo (Cmd.listRequest flags) (some resp.StatusCode),
         .println "Detected existing Global Control Plane, skipping creation"]⟩ := by
  have hlen : list.Data.length > 0 := by
    cases hl : list.Data with
    | nil => simp [hl] at hfind
    | cons a l => simp
  simp only [Cmd.controlPlanesURL, Cmd.listRequest] at hurl hdo
  simp [Cmd.createGlobalControlPlane, NewRequest, clientDo, hurl, hdo, hdec, hfind, hlen,
    Cmd.listRequest, Cmd.controlPlanesURL, Run.after]

/-- The list call finds no match and the create call is answered with 201 and a
decodable resource: that resource is returned. -/
theorem createGlobalControlPlane_created (env : Env σ) (flags : Cmd.Flags) (s : σ)
    (resp : Response) (list : Cmd.GlobalControlPlaneList) (resp2 : Response)
    (cp : Cmd.GlobalControlPlane)
    (hurl : env.lib.urlParseError (Cmd.controlPlanesURL flags) = none)
    (hdo : (env.Do (Cmd.listRequest flags) s).1 = .ok resp)
    (hdec : resp.Body.asGlobalControlPlaneList = .ok list)
    (hfind : list.Data.find? (fun c => EqualFold env.lib c.Name flags.mesh_control_plane_name) =
      none)
    (hdo2 : (env.Do (Cmd.createRequest flags) (env.Do (Cmd.listRequest flags) s).2).1 = .ok resp2)
    (hstatus : resp2.StatusCode = 201)
    (hdec2 : resp2.Body.asGlobalControlPlane = .ok cp) :
    Cmd.createGlobalControlPlane env flags s =
      ⟨.returned cp, (env.Do (Cmd.createRequest flags) (env.Do (Cmd.listRequest flags) s).2).2,
        [.httpDo (Cmd.listRequest flags) (some resp.StatusCode),
         .httpDo (Cmd.createRequest flags) (some 201),
         .println "Global Control Plane created"]⟩ := by
  simp only [Cmd.controlPlanesURL, Cmd.listRequest, Cmd.createRequest] at hurl hdo hdo2
  simp [Cmd.createGlobalControlPlane, NewRequest, clientDo, hurl, hdo, hdec, hfind,
    hdo2, hstatus, hdec2, Cmd.listRequest, Cmd.createRequest, Cmd.controlPlanesURL, Run.after]

end Upsert

section UpsertClaims

variable {σ : Type}

theorem find_first_match {α : Type} (p : α → Bool) (pre post : List α) (a : α)
    (hpre : ∀ c ∈ pre, p c = false) (ha : p a = true) :
    (pre ++ a :: post).find? p = some a := by
  induction pre with
  | nil => simp [ha]
  | cons c pre ih =>
    have hc : p c = false := hpre c (by simp)
    simp only [List.cons_append, List.find?_cons, hc]
    exact ih fun x hx => hpre x (by simp [hx])

/-- C5.  Case-insensitive match, in any environment: when the list call is answered with
a list in which `cp` is the first control plane whose name equals the configured name
under `strings.EqualFold`, `createGlobalControlPlane` returns `cp` unchanged, and its
only events are the list call (a GET) and one printed line: no create (POST) call. -/
theorem createGlobalControlPlane_case_insensitive_match (env : Env σ) (flags : Cmd.Flags)
    (s : σ) (resp : Response) (list : Cmd.GlobalControlPlaneList)
    (pre post : List Cmd.GlobalControlPlane) (cp : Cmd.GlobalControlPlane)
    (hurl : env.lib.urlParseError (Cmd.controlPlanesURL flags) = none)
    (hdo : (env.Do (Cmd.listRequest flags) s).1 = .ok resp)
    (hdec : resp.Body.asGlobalControlPlaneList = .ok list)
    (hdata : list.Data = pre ++ cp :: post)
    (hpre : ∀ c ∈ pre, EqualFold env.lib c.Name flags.mesh_control_plane_name = false)
    (hcp : EqualFold env.lib cp.Name flags.mesh_control_plane_name = true) :
    (Cmd.createGlobalControlPlane env flags s).outcome = .returned cp ∧
    (Cmd.createGlobalControlPlane env flags s).trace =
      [.httpDo (Cmd.listRequest flags) (some resp.StatusCode),
       .println "Detected existing Global Control Plane, skipping creation"] ∧
    (Cmd.createGlobalControlPlane env flags s).trace.filter Event.isPost = [] := by
  have hfind : list.Data.find?
      (fun c => EqualFold env.lib c.Name flags.mesh_control_plane_name) = some cp := by
    rw [hdata]
    exact find_first_match _ pre post cp hpre hcp
  rw [createGlobalControlPlane_found env flags s resp list cp hurl hdo hdec hfind]
  simp [Event.isPost, Cmd.listRequest, setHeaders]

/-- Witness of C5: the configured name `default` against a remote that lists `mesh`,
`Default`, `default`, in this order. -/
theorem createGlobalControlPlane_case_insensitive_match_witness :
    (Cmd.createGlobalControlPlane (World.env asciiLib) {} listingWorld).outcome =
      .returned { ID := "cp-2", Name := "Default" } ∧
    (Cmd.createGlobalControlPlane (World.env asciiLib) {} listingWorld).trace =
      [.httpDo (Cmd.listRequest {}) (some 200),
       .println "Detected existing Global Control Plane, skipping creation"] ∧
    (Cmd.createGlobalControlPlane (World.env asciiLib) {} listingWorld).trace.filter
      Event.isPost = [] :=
  createGlobalControlPlane_case_insensitive_match (World.env asciiLib) {} listingWorld
    ⟨200, jsonControlPlaneList threePlanes⟩ threePlanes
    [{ ID := "cp-1", Name := "mesh" }] [{ ID := "cp-3", Name := "default" }]
    { ID := "cp-2", Name := "Default" } rfl rfl rfl rfl (by decide) (by decide)

/-- The other direction of the example of C5: the configured name `Default` is satisfied
by a control plane named `default`, without a create call. -/
theorem createGlobalControlPlane_upper_matches_lower :
    (Cmd.createGlobalControlPlane (World.env asciiLib)
        { mesh_control_plane_name := "Default" } lowerWorld).outcome =
      .returned { ID := "cp-9", Name := "default" } ∧
    (Cmd.createGlobalControlPlane (World.env asciiLib)
        { mesh_control_plane_name := "Default" } lowerWorld).trace.filter Event.isPost = [] := by
  decide

/-- C4.  Idempotent upsert, in any environment.  The first list call is answered with a
list in which no name matches the configured name; the create call is answered with 201
and a resource `cp` that carries the configured name; the next list call is answered with
a list that contains `cp` and otherwise only entries of the first list.  Then two
consecutive calls of `createGlobalControlPlane` both return `cp`, hence the same id, and
the two calls together issue exactly one POST, the create call. -/
theorem createGlobalControlPlane_idempotent (env : Env σ) (flags : Cmd.Flags) (s : σ)
    (resp resp2 resp3 : Response) (list list3 : Cmd.GlobalControlPlaneList)
    (cp : Cmd.GlobalControlPlane)
    (hurl : env.lib.urlParseError (Cmd.controlPlanesURL flags) = none)
    (hdo : (env.Do (Cmd.listRequest flags) s).1 = .ok resp)
    (hdec : resp.Body.asGlobalControlPlaneList = .ok list)
    (hnone : ∀ c ∈ list.Data, EqualFold env.lib c.Name flags.mesh_control_plane_name = false)
    (hdo2 : (env.Do (Cmd.createRequest flags) (env.Do (Cmd.listRequest flags) s).2).1 = .ok resp2)
    (hstatus : resp2.StatusCode = 201)
    (hdec2 : resp2.Body.asGlobalControlPlane = .ok cp)
    (hname : cp.Name = flags.mesh_control_plane_name)
    (hdo3 : (env.Do (Cmd.listRequest flags)
      (env.Do (Cmd.createRequest flags) (env.Do (Cmd.listRequest flags) s).2).2).1 = .ok resp3)
    (hdec3 : resp3.Body.asGlobalControlPlaneList = .ok list3)
    (hlisted : cp ∈ list3.Data)
    (hsame : ∀ c ∈ list3.Data, c = cp ∨ c ∈ list.Data) :
    (Cmd.createGlobalControlPlane env flags s).outcome = .returned cp ∧
    (Cmd.createGlobalControlPlane env flags
      (Cmd.createGlobalControlPlane env flags s).state).outcome = .returned cp ∧
    ((Cmd.createGlobalControlPlane env flags s).trace ++
      (Cmd.createGlobalControlPlane env flags
        (Cmd.createGlobalControlPlane env flags s).state).trace).filter Event.isPost =
      [.httpDo (Cmd.createRequest flags) (some 201)] := by
  have hfind : list.Data.find?
      (fun c => EqualFold env.lib c.Name flags.mesh_control_plane_name) = none := by
    simpa [List.find?_eq_none] using hnone
  have hfind3 : list3.Data.find?
      (fun c => EqualFold env.lib c.Name flags.mesh_control_plane_name) = some cp := by
    cases hf : list3.Data.find?
        (fun c => EqualFold env.lib c.Name flags.mesh_control_plane_name) with
    | none =>
      have := List.find?_eq_none.1 hf cp hlisted
      simp [hname, EqualFold_self] at this
    | some c =>
      have hc := List.find?_some hf
      have hmem := List.mem_of_find?_eq_some hf
      rcases hsame c hmem with h | h
      · rw [h]
      · have := hnone c h
        simp [this] at hc
  have h1 := createGlobalControlPlane_created env flags s resp list resp2 cp hurl hdo hdec hfind
    hdo2 hstatus hdec2
  rw [h1]
  have h2 := createGlobalControlPlane_found env flags
    (env.Do (Cmd.createRequest flags) (env.Do (Cmd.listRequest flags) s).2).2 resp3 list3 cp
    hurl hdo3 hdec3 hfind3
  simp only [h2]
  simp [Event.isPost, Cmd.listRequest, Cmd.createRequest, setHeaders]

/-- Witness of C4: the configured name `default` against a remote without control
planes that creates `cp-7`. -/
theorem createGlobalControlPlane_idempotent_witness :
    (Cmd.createGlobalControlPlane (World.env asciiLib) {} upsertWorld).outcome =
      .returned { ID := "cp-7", Name := "default" } ∧
    (Cmd.createGlobalControlPlane (World.env asciiLib) {}
      (Cmd.createGlobalControlPlane (World.env asciiLib) {} upsertWorld).state).outcome =
      .returned { ID := "cp-7", Name := "default" } ∧
    ((Cmd.createGlobalControlPlane (World.env asciiLib) {} upsertWorld).trace ++
      (Cmd.createGlobalControlPlane (World.env asciiLib) {}
        (Cmd.createGlobalControlPlane (World.env asciiLib) {} upsertWorld).state).trace).filter
        Event.isPost =
      [.httpDo (Cmd.createRequest {}) (some 201)] :=
  createGlobalControlPlane_idempotent (World.env asciiLib) {} upsertWorld
    ⟨200, jsonControlPlaneList {}⟩ ⟨201, jsonControlPlane { ID := "cp-7", Name := "default" }⟩
    ⟨200, jsonControlPlaneList { Data := [{ ID := "cp-7", Name := "default" }] }⟩
    {} { Data := [{ ID := "cp-7", Name := "default" }] } { ID := "cp-7", Name := "default" }
    rfl rfl rfl (by decide) rfl rfl rfl rfl rfl rfl (by decide) (by decide)

end UpsertClaims

/-! ## The create-zone flow -/

section ZoneFlow

variable {σ α β : Type}

/-- Sequencing after a program that returns. -/
theorem Prog.andThen_returned (m : Prog σ α) (f : α → Prog σ β) (s : σ) (a : α)
    (h : (m s).outcome = .returned a) :
    m.andThen f s = (f a (m s).state).after (m s).trace := by
  rw [Prog.andThen_apply, h]

@[simp] theorem World.env_Do_http (lib : Lib) (req : Request) (r : Except String Response)
    (rest : List Reply) (st : Store) :
    (World.env lib).Do req ⟨.http r :: rest, st⟩ = (r, ⟨rest, st⟩) := rfl

/-- The provisioning call is answered with 200 and a decodable token: the zone carries
the configured name and the token. -/
theorem createMeshZone_ok (env : Env σ) (flags : Cmd.Flags) (cp : Cmd.GlobalControlPlane)
    (s : σ) (resp : Response) (z : Cmd.CreateMeshZoneResponse)
    (hurl : env.lib.urlParseError (Cmd.provisionZoneURL flags cp.ID) = none)
    (hdo : (env.Do (Cmd.zoneRequest flags cp.ID) s).1 = .ok resp)
    (hstatus : resp.StatusCode = 200)
    (hdec : resp.Body.asCreateMeshZoneResponse = .ok z) :
    Cmd.createMeshZone env flags cp s =
      ⟨.returned { Name := flags.mesh_zone_name, Token := z.Token },
        (env.Do (Cmd.zoneRequest flags cp.ID) s).2,
        [.httpDo (Cmd.zoneRequest flags cp.ID) (some 200), .println "Zone created"]⟩ := by
  simp only [Cmd.provisionZoneURL, Cmd.zoneRequest] at hurl hdo
  simp [Cmd.createMeshZone, NewRequest, clientDo, hurl, hdo, hstatus, hdec, Cmd.zoneRequest,
    Cmd.provisionZoneURL, Run.after]

/-- On the store, `CreateSecret` of a name the store does not hold: one describe, one
create, and the record is added. -/
theorem CreateSecret_world_absent (lib : Lib) (fuel : Nat) (n v : String) (w : World)
    (h : w.store.has n = false) :
    Main.CreateSecret (World.env lib) fuel n v w =
      ⟨.returned (), { w with store := { w.store with records := w.store.records ++ [⟨n, v⟩] } },
        [.call "CreateSecret" [n, v], .loadDefaultConfig none,
         .describeSecret n (some notFoundError), .createSecret n v none]⟩ := by
  rw [CreateSecret_absent (World.env lib) fuel n v w notFoundError rfl
    (by simp [Store.describe, h]) contains_notFoundError]
  simp [createStep, Store.describe, Store.create, h, Run.after]

end ZoneFlow

section ZoneClaims

set_option maxRecDepth 100000

/-- C7.  End-to-end zone flow.  The remote lists no control plane, answers the
control-plane create with 201 and a resource with id `I = cp.ID`, and answers the zone
provisioning with 200 and the token `T`; the secret store is empty; the configured names
are `default` and `z1`.  Then the create-zone run returns; its POST calls are exactly the
control-plane create and the zone provisioning under id `I`, in this order; its only
create call to the secret store is for the name `I-z1` with value `T`; and the one
summary it prints has zone_name `z1`, global_control_plane_id `I` and
zone_token_secret_name `I-z1`. -/
theorem createZone_end_to_end (lib : Lib) (flags : Cmd.Flags) (fuel : Nat) (w : World)
    (resp1 resp2 resp3 : Response) (list : Cmd.GlobalControlPlaneList)
    (cp : Cmd.GlobalControlPlane) (T : String)
    (hname : flags.mesh_control_plane_name = "default")
    (hzone : flags.mesh_zone_name = "z1")
    (hurl1 : lib.urlParseError (Cmd.controlPlanesURL flags) = none)
    (hurl2 : lib.urlParseError (Cmd.provisionZoneURL flags cp.ID) = none)
    (hreplies : w.replies = [.http (.ok resp1), .http (.ok resp2), .http (.ok resp3)])
    (hlist : resp1.Body.asGlobalControlPlaneList = .ok list) (hempty : list.Data = [])
    (h201 : resp2.StatusCode = 201) (hcp : resp2.Body.asGlobalControlPlane = .ok cp)
    (h200 : resp3.StatusCode = 200)
    (htoken : resp3.Body.asCreateMeshZoneResponse = .ok { Token := T })
    (hstore : w.store.records = []) :
    (Cmd.createMeshZoneCmd.Run (World.env lib) fuel flags w).outcome = .returned () ∧
    (Cmd.createMeshZoneCmd.Run (World.env lib) fuel flags w).trace.filter Event.isPost =
      [.httpDo (Cmd.createRequest flags) (some 201),
       .httpDo (Cmd.zoneRequest flags cp.ID) (some 200)] ∧
    (Cmd.createRequest flags).Body = some [("name", "default")] ∧
    (Cmd.zoneRequest flags cp.ID).Body = some [("name", "z1")] ∧
    (Cmd.createMeshZoneCmd.Run (World.env lib) fuel flags w).trace.filter Event.isCreateSecret =
      [.createSecret (cp.ID ++ "-z1") T none] ∧
    (Cmd.createMeshZoneCmd.Run (World.env lib) fuel flags w).trace.filter Event.isPrintJSON =
      [.printJSON [("global_control_plane_name", cp.Name), ("global_control_plane_id", cp.ID),
        ("zone_name", "z1"), ("zone_token_secret_name", cp.ID ++ "-z1")]] := by
  obtain ⟨replies, store⟩ := w
  simp only at hreplies hstore
  subst hreplies
  have h1 := createGlobalControlPlane_created (World.env lib) flags
    ⟨[.http (.ok resp1), .http (.ok resp2), .http (.ok resp3)], store⟩ resp1 list resp2 cp
    hurl1 rfl hlist (by simp [hempty]) rfl h201 hcp
  have h2 := createMeshZone_ok (World.env lib) flags cp ⟨[.http (.ok resp3)], store⟩ resp3
    { Token := T } hurl2 rfl h200 htoken
  have h3 := CreateSecret_world_absent lib fuel (cp.ID ++ "-z1") T ⟨[], store⟩
    (by simp [Store.has, hstore])
  have happ : cp.ID ++ "-" ++ "z1" = cp.ID ++ "-z1" := by
    rw [String.append_assoc]
    rfl
  simp only [World.env_Do_http] at h1 h2
  simp [Cmd.createMeshZoneCmd.Run, Cmd.CreateSecret, Prog.andThen_apply, h1, h2, h3, hzone,
    Event.isPost, Event.isCreateSecret, Event.isPrintJSON, Cmd.CreateMeshZoneOutput.json,
    Cmd.createRequest, Cmd.zoneRequest, Cmd.listRequest, setHeaders, hname, happ]

/-- Witness of C7: the remote creates the control plane `cp-7` and issues the token
`tok-1`. -/
theorem createZone_end_to_end_witness :
    (Cmd.createMeshZoneCmd.Run (World.env asciiLib) 0 zoneFlags zoneWorld).outcome =
      .returned () ∧
    (Cmd.createMeshZoneCmd.Run (World.env asciiLib) 0 zoneFlags zoneWorld).trace.filter
        Event.isPost =
      [.httpDo (Cmd.createRequest zoneFlags) (some 201),
       .httpDo (Cmd.zoneRequest zoneFlags "cp-7") (some 200)] ∧
    (Cmd.createRequest zoneFlags).Body = some [("name", "default")] ∧
    (Cmd.zoneRequest zoneFlags "cp-7").Body = some [("name", "z1")] ∧
    (Cmd.createMeshZoneCmd.Run (World.env asciiLib) 0 zoneFlags zoneWorld).trace.filter
        Event.isCreateSecret =
      [.createSecret ("cp-7" ++ "-z1") "tok-1" none] ∧
    (Cmd.createMeshZoneCmd.Run (World.env asciiLib) 0 zoneFlags zoneWorld).trace.filter
        Event.isPrintJSON =
      [.printJSON [("global_control_plane_name", "default"), ("global_control_plane_id", "cp-7"),
        ("zone_name", "z1"), ("zone_token_secret_name", "cp-7" ++ "-z1")]] :=
  createZone_end_to_end asciiLib zoneFlags 0 zoneWorld
    ⟨200, jsonControlPlaneList {}⟩ ⟨201, jsonControlPlane { ID := "cp-7", Name := "default" }⟩
    ⟨200, jsonZoneToken "tok-1"⟩ {} { ID := "cp-7", Name := "default" } "tok-1"
    rfl rfl rfl rfl rfl rfl rfl rfl rfl rfl rfl rfl

/-- A status of the provisioning call other than 200, 401 and 409 is not an error for
`createMeshZone`: it returns the zero-valued zone, without name and token. -/
theorem createMeshZone_unhandled_status {σ : Type} (env : Env σ) (flags : Cmd.Flags)
    (cp : Cmd.GlobalControlPlane) (s : σ) (resp : Response)
    (hurl : env.lib.urlParseError (Cmd.provisionZoneURL flags cp.ID) = none)
    (hdo : (env.Do (Cmd.zoneRequest flags cp.ID) s).1 = .ok resp)
    (h401 : resp.StatusCode ≠ 401) (h409 : resp.StatusCode ≠ 409) (h200 : resp.StatusCode ≠ 200) :
    Cmd.createMeshZone env flags cp s =
      ⟨.returned {}, (env.Do (Cmd.zoneRequest flags cp.ID) s).2,
        [.httpDo (Cmd.zoneRequest flags cp.ID) (some resp.StatusCode)]⟩ := by
  simp only [Cmd.provisionZoneURL, Cmd.zoneRequest] at hurl hdo
  simp [Cmd.createMeshZone, NewRequest, clientDo, hurl, hdo, h401, h409, h200, Cmd.zoneRequest,
    Cmd.provisionZoneURL, Run.after]

/-- C8, at the failing input.  The zone provisioning call is answered with status 500.
The create-zone run does not abort: it goes on to call `CreateSecret` with the name
`cp-7-` (the control-plane id, a dash and the empty zone name) and the empty token,
which reaches the secret store, and on the store of the model it prints a summary with
an empty zone_name. -/
theorem createZone_status_500_not_aborted :
    (Cmd.createMeshZoneCmd.Run (World.env asciiLib) 0 zoneFlags zoneErrorWorld).trace.filter
        Event.isPost =
      [.httpDo (Cmd.createRequest zoneFlags) (some 201),
       .httpDo (Cmd.zoneRequest zoneFlags "cp-7") (some 500)] ∧
    (Cmd.createMeshZoneCmd.Run (World.env asciiLib) 0 zoneFlags zoneErrorWorld).trace.filter
        Event.isCreateSecretCall =
      [.call "CreateSecret" ["cp-7-", ""]] ∧
    (Cmd.createMeshZoneCmd.Run (World.env asciiLib) 0 zoneFlags zoneErrorWorld).trace.filter
        Event.isSecretCall =
      [.describeSecret "cp-7-" (some notFoundError), .createSecret "cp-7-" "" none] ∧
    (Cmd.createMeshZoneCmd.Run (World.env asciiLib) 0 zoneFlags zoneErrorWorld).trace.filter
        Event.isPrintJSON =
      [.printJSON [("global_control_plane_name", "default"), ("global_control_plane_id", "cp-7"),
        ("zone_name", ""), ("zone_token_secret_name", "cp-7-")]] ∧
    (Cmd.createMeshZoneCmd.Run (World.env asciiLib) 0 zoneFlags zoneErrorWorld).outcome =
      .returned () := by
  decide

end ZoneClaims

/-! ## The runtime-group flow -/

section RuntimeClaims

set_option maxRecDepth 100000

/-- C6, at the failing input.  In the runtime-group flow the client-certificate upload is
answered with status 401.  The run does not abort: `GenerateKeys` never looks at the
status of that call, goes on to call `CreateSecret` three times, and returns. -/
theorem main_upload_401_not_aborted :
    (Main.main (World.env asciiLib) 0 runtimeFlags uploadDeniedWorld).trace.filter
        (fun e => e.isHttp || e.isCreateSecretCall) =
      [.httpDo (Main.createGroupRequest runtimeFlags) (some 201),
       .httpDo (Main.lookupRequest runtimeFlags) (some 200),
       .httpDo (Main.uploadRequest runtimeFlags "rg-1" (EncodeToMemory "CERTIFICATE" [48, 3]))
         (some 401),
       .call "CreateSecret" ["rg-1-cert", EncodeToMemory "CERTIFICATE" [48, 3]],
       .call "CreateSecret" ["rg-1-key", EncodeToMemory "RSA PRIVATE KEY" [48, 2]],
       .call "CreateSecret" ["rg-1-pat-token", "kpat_1"]] ∧
    (Main.main (World.env asciiLib) 0 runtimeFlags uploadDeniedWorld).outcome = .returned () := by
  decide

/-- The same defect in the create-zone flow: the control-plane list call is answered with
status 401 and an error message, which decodes to an empty list; the run goes on to the
create call and, when that and the provisioning are answered favourably, to
`CreateSecret`. -/
theorem createZone_list_401_not_aborted :
    (Cmd.createMeshZoneCmd.Run (World.env asciiLib) 0 zoneFlags listDeniedWorld).trace.filter
        (fun e => e.isHttp || e.isCreateSecretCall) =
      [.httpDo (Cmd.listRequest zoneFlags) (some 401),
       .httpDo (Cmd.createRequest zoneFlags) (some 201),
       .httpDo (Cmd.zoneRequest zoneFlags "cp-7") (some 200),
       .call "CreateSecret" ["cp-7-z1", "tok-1"]] := by
  decide

/-- C9, at the failing input.  The clock advances by 1500 nanoseconds between the two
`time.Now()` calls of the template.  NotBefore is the first reading; NotAfter is the
second reading advanced by one year, which is not NotBefore advanced by one year: the
window is 1500 nanoseconds longer than one year. -/
theorem GenerateKeys_validity_not_one_year :
    (Main.GenerateKeys (World.env asciiLib) 0 runtimeFlags
        (keysWorld (.ok ⟨201, jsonOther⟩) {})).trace.filterMap Event.validity =
      [(instant1, ⟨1825158896000001500⟩)] ∧
    instant1.AddDate 1 0 0 = ⟨1825158896000000000⟩ ∧
    instant1.AddDate 1 0 0 ≠ ⟨1825158896000001500⟩ ∧
    (1825158896000001500 : Nat) - instant1.unixNano = 365 * 86400 * 1000000000 + 1500 := by
  decide

end RuntimeClaims

/-! ## `GenerateKeys` and its secrets -/

section Secrets

set_option maxRecDepth 100000

theorem filter_flatten_replicate {α : Type} (p : α → Bool) (l : List α) (k : Nat)
    (h : l.filter p = []) : ((List.replicate k l).flatten).filter p = [] := by
  induction k with
  | zero => simp
  | succ k ih => simp [List.replicate_succ, ih, h]

/-- On the store, `CreateSecret` of a name the store holds and is not yet deleting: the
run, in full. -/
theorem CreateSecret_world_present (lib : Lib) (fuel : Nat) (n v : String) (w : World)
    (hrec : w.store.has n = true) (hsched : w.store.scheduled n = none)
    (hfuel : w.store.lag < fuel) :
    Main.CreateSecret (World.env lib) fuel n v w =
      ⟨.returned (),
        { w with store := { w.store.purge n with
                            records := (w.store.purge n).records ++ [⟨n, v⟩] } },
        [.call "CreateSecret" [n, v], .loadDefaultConfig none, .describeSecret n none,
          .deleteSecret n true none] ++
          ((List.replicate w.store.lag (pollRound n none)).flatten ++
            (pollRound n (some notFoundError) ++ [.createSecret n v none]))⟩ := by
  have h2 : ((World.env lib).DescribeSecret n ((World.env lib).LoadDefaultConfig w).2).1 = none := by
    simp [Store.describe, hrec, hsched]
  have h3 : ((World.env lib).DeleteSecret n true
      ((World.env lib).DescribeSecret n ((World.env lib).LoadDefaultConfig w).2).2).1 = none := by
    simp [Store.describe, Store.delete, hrec, hsched]
  rw [CreateSecret_present _ _ _ _ _ rfl h2 h3]
  simp only [World.env_LoadDefaultConfig, World.env_DescribeSecret, World.env_DeleteSecret,
    Store.describe, Store.delete, hrec, hsched, if_true, Bool.and_true, Option.getD_none]
  rw [Prog.andThen_apply, waitForDeletion_world lib n w.store.lag fuel _
    (by simpa [Store.has] using hrec) (by simp) hfuel]
  simp [createStep, Store.create, Store.has_purge, Run.after]
  simp [Store.purge]

/-- On a store without pending deletions, `CreateSecret` returns, is entered once,
prints no summary, leaves the scripted replies alone and leaves the store without
pending deletions. -/
theorem CreateSecret_world_returns (lib : Lib) (fuel : Nat) (n v : String) (w : World)
    (hsched : ∀ m, w.store.scheduled m = none) (hfuel : w.store.lag < fuel) :
    ∃ (tr : List Event) (st : Store),
      Main.CreateSecret (World.env lib) fuel n v w = ⟨.returned (), ⟨w.replies, st⟩, tr⟩ ∧
      tr.filter Event.isCreateSecretCall = [.call "CreateSecret" [n, v]] ∧
      tr.filter Event.isPrintJSON = [] ∧
      tr.filter Event.isCreateCertificate = [] ∧
      (∀ m, st.scheduled m = none) ∧ st.lag = w.store.lag := by
  cases hrec : w.store.has n with
  | false =>
    refine ⟨_, _, CreateSecret_world_absent lib fuel n v w hrec, ?_, ?_, ?_, ?_, rfl⟩
    · simp [Event.isCreateSecretCall]
    · simp [Event.isPrintJSON]
    · simp [Event.isCreateCertificate]
    · exact hsched
  | true =>
    refine ⟨_, _, CreateSecret_world_present lib fuel n v w hrec (hsched n) hfuel,
      ?_, ?_, ?_, ?_, rfl⟩
    · simp [Event.isCreateSecretCall, pollRound, filter_flatten_replicate]
    · simp [Event.isPrintJSON, pollRound, filter_flatten_replicate]
    · simp [Event.isCreateCertificate, pollRound, filter_flatten_replicate]
    · intro m
      by_cases hm : m = n
      · simp [Store.purge, hm]
      · simp [Store.purge, Function.update_noteq hm, hsched m]

@[simp] theorem World.env_Now_time (lib : Lib) (t : Time) (rest : List Reply) (st : Store) :
    (World.env lib).Now ⟨.time t :: rest, st⟩ = (t, ⟨rest, st⟩) := rfl

@[simp] theorem World.env_GenerateKey_key (lib : Lib) (bits : Nat) (r : Except String PrivateKey)
    (rest : List Reply) (st : Store) :
    (World.env lib).GenerateKey bits ⟨.key r :: rest, st⟩ = (r, ⟨rest, st⟩) := rfl

@[simp] theorem World.env_CreateCertificate_cert (lib : Lib) (t p : Certificate) (pub : PublicKey)
    (priv : PrivateKey) (r : Except String Bytes) (rest : List Reply) (st : Store) :
    (World.env lib).CreateCertificate t p pub priv ⟨.cert r :: rest, st⟩ = (r, ⟨rest, st⟩) := rfl

/-- The validity window that `GenerateKeys` puts in its template: NotBefore is the first
clock reading, NotAfter the second clock reading advanced by one year. -/
theorem GenerateKeys_validity_window (lib : Lib) (flags : Main.Flags) (fuel : Nat) (w : World)
    (respL respU : Response) (cfg : Main.RuntimeConfiguration) (d : Main.RuntimeGroup)
    (rest : List Main.RuntimeGroup) (key : PrivateKey) (t1 t2 : Time) (certBytes : Bytes)
    (hurlL : lib.urlParseError (Main.lookupURL flags) = none)
    (hurlU : lib.urlParseError (Main.uploadURL flags d.ID) = none)
    (hreplies : w.replies = [.http (.ok respL), .key (.ok key), .time t1, .time t2,
      .cert (.ok certBytes), .http (.ok respU)])
    (hcfg : respL.Body.asRuntimeConfiguration = .ok cfg) (hdata : cfg.Data = d :: rest)
    (hsched : ∀ m, w.store.scheduled m = none) (hfuel : w.store.lag < fuel) :
    (Main.GenerateKeys (World.env lib) fuel flags w).trace.filter Event.isCreateCertificate =
      [.createCertificate (Main.template t1 t2) (Main.template t1 t2)] := by
  obtain ⟨replies, store⟩ := w
  simp only at hreplies hsched hfuel
  subst hreplies
  obtain ⟨tr1, st1, e1, _, _, v1, s1, l1⟩ := CreateSecret_world_returns lib fuel
    (d.ID ++ "-cert") (EncodeToMemory "CERTIFICATE" certBytes) ⟨[], store⟩ hsched hfuel
  obtain ⟨tr2, st2, e2, _, _, v2, s2, l2⟩ := CreateSecret_world_returns lib fuel
    (d.ID ++ "-key") (EncodeToMemory "RSA PRIVATE KEY" (MarshalPKCS1PrivateKey key)) ⟨[], st1⟩ s1
    (by simpa [l1] using hfuel)
  obtain ⟨tr3, st3, e3, _, _, v3, _, _⟩ := CreateSecret_world_returns lib fuel
    (d.ID ++ "-pat-token") flags.personal_access_token ⟨[], st2⟩ s2
    (by simpa [l1, l2] using hfuel)
  simp only [Main.lookupURL, Main.uploadURL] at hurlL hurlU
  simp [Main.GenerateKeys, Main.GetRuntimeGroupConfiguration, NewRequest, clientDo, hurlL, hurlU,
    hcfg, hdata, Prog.andThen_apply, e1, e2, e3, v1, v2, v3, Event.isCreateCertificate,
    Main.template,
    Main.Output.json, Main.Cert.json, setHeaders]

/-- C10, as amended.  The lookup is answered with a list whose first entry is `d`, with
id `I = d.ID`; key generation and certificate creation succeed; the upload request can be
built and is answered, with any status; the store has no pending deletion and the polling
loop has fuel for its deletion lag.  Then `GenerateKeys` returns; it enters `CreateSecret`
exactly three times, in this order, with `I-cert` and the certificate PEM, `I-key` and the
private-key PEM, `I-pat-token` and the personal access token; and the one summary it
prints carries these three names as cert_secret_name, key_secret_name and
personal_access_token. -/
theorem GenerateKeys_three_secrets (lib : Lib) (flags : Main.Flags) (fuel : Nat) (w : World)
    (respL respU : Response) (cfg : Main.RuntimeConfiguration) (d : Main.RuntimeGroup)
    (rest : List Main.RuntimeGroup) (key : PrivateKey) (t1 t2 : Time) (certBytes : Bytes)
    (hurlL : lib.urlParseError (Main.lookupURL flags) = none)
    (hurlU : lib.urlParseError (Main.uploadURL flags d.ID) = none)
    (hreplies : w.replies = [.http (.ok respL), .key (.ok key), .time t1, .time t2,
      .cert (.ok certBytes), .http (.ok respU)])
    (hcfg : respL.Body.asRuntimeConfiguration = .ok cfg) (hdata : cfg.Data = d :: rest)
    (hsched : ∀ m, w.store.scheduled m = none) (hfuel : w.store.lag < fuel) :
    (Main.GenerateKeys (World.env lib) fuel flags w).outcome = .returned () ∧
    (Main.GenerateKeys (World.env lib) fuel flags w).trace.filter Event.isCreateSecretCall =
      [.call "CreateSecret" [d.ID ++ "-cert", EncodeToMemory "CERTIFICATE" certBytes],
       .call "CreateSecret"
         [d.ID ++ "-key", EncodeToMemory "RSA PRIVATE KEY" (MarshalPKCS1PrivateKey key)],
       .call "CreateSecret" [d.ID ++ "-pat-token", flags.personal_access_token]] ∧
    (Main.GenerateKeys (World.env lib) fuel flags w).trace.filter Event.isPrintJSON =
      [.printJSON [("cluster_dns", d.Config.ControlPlaneEndpoint),
        ("telemetry_dns", d.Config.TelemetryEndpoint), ("runtime_name", d.Name),
        ("cert_secret_name", d.ID ++ "-cert"), ("key_secret_name", d.ID ++ "-key"),
        ("personal_access_token", d.ID ++ "-pat-token")]] := by
  obtain ⟨replies, store⟩ := w
  simp only at hreplies hsched hfuel
  subst hreplies
  obtain ⟨tr1, st1, e1, c1, p1, _, s1, l1⟩ := CreateSecret_world_returns lib fuel
    (d.ID ++ "-cert") (EncodeToMemory "CERTIFICATE" certBytes) ⟨[], store⟩ hsched hfuel
  obtain ⟨tr2, st2, e2, c2, p2, _, s2, l2⟩ := CreateSecret_world_returns lib fuel
    (d.ID ++ "-key") (EncodeToMemory "RSA PRIVATE KEY" (MarshalPKCS1PrivateKey key)) ⟨[], st1⟩ s1
    (by simpa [l1] using hfuel)
  obtain ⟨tr3, st3, e3, c3, p3, _, _, _⟩ := CreateSecret_world_returns lib fuel
    (d.ID ++ "-pat-token") flags.personal_access_token ⟨[], st2⟩ s2
    (by simpa [l1, l2] using hfuel)
  simp only [Main.lookupURL, Main.uploadURL] at hurlL hurlU
  simp [Main.GenerateKeys, Main.GetRuntimeGroupConfiguration, NewRequest, clientDo, hurlL, hurlU,
    hcfg, hdata, Prog.andThen_apply, e1, e2, e3, c1, c2, c3, p1, p2, p3,
    Event.isCreateSecretCall, Event.isPrintJSON, Main.Output.json, Main.Cert.json, setHeaders]

/-- Witness of the amended C10: the group `rg-1`, a store that still holds an old
`rg-1-cert` and needs one more describe call to purge a deleted name. -/
theorem GenerateKeys_three_secrets_witness :
    (Main.GenerateKeys (World.env asciiLib) 2 runtimeFlags
      (keysWorld (.ok ⟨201, jsonOther⟩)
        { records := [⟨"rg-1-cert", "old"⟩], lag := 1 })).outcome = .returned () ∧
    (Main.GenerateKeys (World.env asciiLib) 2 runtimeFlags
      (keysWorld (.ok ⟨201, jsonOther⟩)
        { records := [⟨"rg-1-cert", "old"⟩], lag := 1 })).trace.filter Event.isCreateSecretCall =
      [.call "CreateSecret" [group1.ID ++ "-cert", EncodeToMemory "CERTIFICATE" [48, 3]],
       .call "CreateSecret"
         [group1.ID ++ "-key", EncodeToMemory "RSA PRIVATE KEY" (MarshalPKCS1PrivateKey key1)],
       .call "CreateSecret" [group1.ID ++ "-pat-token", runtimeFlags.personal_access_token]] ∧
    (Main.GenerateKeys (World.env asciiLib) 2 runtimeFlags
      (keysWorld (.ok ⟨201, jsonOther⟩)
        { records := [⟨"rg-1-cert", "old"⟩], lag := 1 })).trace.filter Event.isPrintJSON =
      [.printJSON [("cluster_dns", group1.Config.ControlPlaneEndpoint),
        ("telemetry_dns", group1.Config.TelemetryEndpoint), ("runtime_name", group1.Name),
        ("cert_secret_name", group1.ID ++ "-cert"), ("key_secret_name", group1.ID ++ "-key"),
        ("personal_access_token", group1.ID ++ "-pat-token")]] :=
  GenerateKeys_three_secrets asciiLib runtimeFlags 2
    (keysWorld (.ok ⟨201, jsonOther⟩) { records := [⟨"rg-1-cert", "old"⟩], lag := 1 })
    ⟨200, jsonRuntimeConfiguration { Data := [group1] }⟩ ⟨201, jsonOther⟩ { Data := [group1] }
    group1 [] key1 instant1 instant2 [48, 3] rfl rfl rfl rfl rfl (fun _ => rfl) (by decide)

/-- C10, counterexample.  The lookup returns the group `rg-1`, key generation and
certificate creation succeed.  When the upload fails in transport, `GenerateKeys` prints
the error and returns without entering `CreateSecret` and without a summary.  When the
upload is answered but the store refuses the first describe call, `CreateSecret` is
entered once, not three times, and the run panics without a summary. -/
theorem GenerateKeys_fewer_than_three_secrets :
    ((Main.GenerateKeys (World.env asciiLib) 0 runtimeFlags
        (keysWorld (.error "connection reset") {})).trace =
      [.httpDo (Main.lookupRequest runtimeFlags) (some 200),
       .println "Runtime Group ID:  rg-1",
       .generateKey 4096, .now instant1, .now instant2,
       .createCertificate (Main.template instant1 instant2) (Main.template instant1 instant2),
       .httpDo (Main.uploadRequest runtimeFlags "rg-1" (EncodeToMemory "CERTIFICATE" [48, 3]))
         none,
       .println "Error sending request: connection reset"] ∧
     (Main.GenerateKeys (World.env asciiLib) 0 runtimeFlags
        (keysWorld (.error "connection reset") {})).outcome = .returned ()) ∧
    ((Main.GenerateKeys deniedEnv 0 runtimeFlags
        (keysWorld (.ok ⟨201, jsonOther⟩) {})).trace.filter Event.isCreateSecretCall =
      [.call "CreateSecret" ["rg-1-cert", EncodeToMemory "CERTIFICATE" [48, 3]]] ∧
     (Main.GenerateKeys deniedEnv 0 runtimeFlags
        (keysWorld (.ok ⟨201, jsonOther⟩) {})).trace.filter Event.isPrintJSON = [] ∧
     (Main.GenerateKeys deniedEnv 0 runtimeFlags
        (keysWorld (.ok ⟨201, jsonOther⟩) {})).outcome =
      .panicked ("failed to describe secret, " ++
        "operation error Secrets Manager: DescribeSecret, AccessDeniedException")) := by
  decide

end Secrets

/-! ## The calls that do check for status 401 -/

section Unauthorized

variable {σ : Type}

/-- A 401 answer to the zone provisioning call is fatal. -/
theorem createMeshZone_unauthorized (env : Env σ) (flags : Cmd.Flags)
    (cp : Cmd.GlobalControlPlane) (s : σ) (resp : Response)
    (hurl : env.lib.urlParseError (Cmd.provisionZoneURL flags cp.ID) = none)
    (hdo : (env.Do (Cmd.zoneRequest flags cp.ID) s).1 = .ok resp)
    (h401 : resp.StatusCode = 401) :
    Cmd.createMeshZone env flags cp s =
      ⟨.fatal "UnAuthorized, pls validate your PAT token and Konnect RBAC permissions",
        (env.Do (Cmd.zoneRequest flags cp.ID) s).2,
        [.httpDo (Cmd.zoneRequest flags cp.ID) (some 401)]⟩ := by
  simp only [Cmd.provisionZoneURL, Cmd.zoneRequest] at hurl hdo
  simp [Cmd.createMeshZone, NewRequest, clientDo, hurl, hdo, h401, Cmd.zoneRequest,
    Cmd.provisionZoneURL, Run.after]

/-- A 401 answer to the control-plane create call is fatal. -/
theorem createGlobalControlPlane_unauthorized (env : Env σ) (flags : Cmd.Flags) (s : σ)
    (resp : Response) (list : Cmd.GlobalControlPlaneList) (resp2 : Response)
    (hurl : env.lib.urlParseError (Cmd.controlPlanesURL flags) = none)
    (hdo : (env.Do (Cmd.listRequest flags) s).1 = .ok resp)
    (hdec : resp.Body.asGlobalControlPlaneList = .ok list)
    (hfind : list.Data.find? (fun c => EqualFold env.lib c.Name flags.mesh_control_plane_name) =
      none)
    (hdo2 : (env.Do (Cmd.createRequest flags) (env.Do (Cmd.listRequest flags) s).2).1 = .ok resp2)
    (h401 : resp2.StatusCode = 401) :
    Cmd.createGlobalControlPlane env flags s =
      ⟨.fatal "UnAuthorized, pls validate your PAT token and Konnect RBAC permissions",
        (env.Do (Cmd.createRequest flags) (env.Do (Cmd.listRequest flags) s).2).2,
        [.httpDo (Cmd.listRequest flags) (some resp.StatusCode),
         .httpDo (Cmd.createRequest flags) (some 401)]⟩ := by
  simp only [Cmd.controlPlanesURL, Cmd.listRequest, Cmd.createRequest] at hurl hdo hdo2
  simp [Cmd.createGlobalControlPlane, NewRequest, clientDo, hurl, hdo, hdec, hfind,
    hdo2, h401, Cmd.listRequest, Cmd.createRequest, Cmd.controlPlanesURL, Run.after]

/-- A 401 answer to the runtime-group create call of `main` is fatal: `GenerateKeys` is
not reached. -/
theorem main_unauthorized (env : Env σ) (fuel : Nat) (flags : Main.Flags) (s : σ)
    (resp : Response)
    (htype : flags.cluster_type = Main.ClusterTypeHybrid ∨
      flags.cluster_type = Main.ClusterTypeKiC ∨ flags.cluster_type = Main.ClusterTypeComposite)
    (hurl : env.lib.urlParseError (Main.createGroupRequest flags).URL = none)
    (hdo : (env.Do (Main.createGroupRequest flags) s).1 = .ok resp)
    (h401 : resp.StatusCode = 401) :
    Main.main env fuel flags s =
      ⟨.fatal "UnAuthorized, pls validate your PAT token and Konnect RBAC permissions",
        (env.Do (Main.createGroupRequest flags) s).2,
        [.httpDo (Main.createGroupRequest flags) (some 401)]⟩ := by
  have hcond : ¬ (flags.cluster_type ≠ Main.ClusterTypeHybrid ∧
      flags.cluster_type ≠ Main.ClusterTypeKiC ∧
      flags.cluster_type ≠ Main.ClusterTypeComposite) := by
    rcases htype with h | h | h <;> simp [h]
  simp only [Main.createGroupRequest, setHeaders] at hurl hdo
  simp [Main.main, NewRequest, clientDo, hcond, hurl, hdo, h401, Main.createGroupRequest,
    setHeaders, Run.after]

end Unauthorized

/-! ## Serial numbers -/

section Serial

set_option maxRecDepth 100000

variable {σ α β : Type}

theorem issuesNone_ret (a : α) : IssuesNone (Prog.ret a : Prog σ α) := by
  intro s; simp

theorem issuesNone_goPanic (msg : String) : IssuesNone (Prog.goPanic msg : Prog σ α) := by
  intro s; simp

theorem issuesNone_logFatal (msg : String) : IssuesNone (Prog.logFatal msg : Prog σ α) := by
  intro s; simp

theorem issuesNone_noFuel : IssuesNone (Prog.noFuel : Prog σ α) := by
  intro s; simp

theorem issuesNone_perform (op : σ → α × σ) (ev : α → Event) (h : ∀ a, (ev a).serial = none) :
    IssuesNone (Prog.perform op ev) := by
  intro s; simp [h]

theorem issuesNone_emit (e : Event) (h : e.serial = none) : IssuesNone (Prog.emit e : Prog σ Unit) := by
  intro s; simp [h]

theorem issuesNone_Println (line : String) : IssuesNone (Prog.Println line : Prog σ Unit) := by
  intro s; simp [Event.serial]

theorem issuesNone_andThen (m : Prog σ α) (f : α → Prog σ β) (hm : IssuesNone m)
    (hf : ∀ a, IssuesNone (f a)) : IssuesNone (m.andThen f) := by
  intro s
  rw [Prog.andThen_apply]
  have h1 := hm s
  split
  · rename_i a _
    simp [h1, hf a (m s).state]
  all_goals simpa using h1

theorem issuesSerialOne_of_none (m : Prog σ α) (h : IssuesNone m) : IssuesSerialOne m :=
  fun s => Or.inl (h s)

theorem issuesSerialOne_andThen (m : Prog σ α) (f : α → Prog σ β) (hm : IssuesNone m)
    (hf : ∀ a, IssuesSerialOne (f a)) : IssuesSerialOne (m.andThen f) := by
  intro s
  rw [Prog.andThen_apply]
  have h1 := hm s
  split
  · rename_i a _
    simpa [h1] using hf a (m s).state
  all_goals exact Or.inl (by simpa using h1)

theorem issuesNone_clientDo (env : Env σ) (req : Request) : IssuesNone (clientDo env req) :=
  issuesNone_perform _ _ fun _ => rfl

theorem issuesNone_waitForDeletion (env : Env σ) (n : String) :
    ∀ fuel, IssuesNone (Main.waitForDeletion env n fuel) := by
  intro fuel
  induction fuel with
  | zero => exact issuesNone_noFuel
  | succ fuel ih =>
    intro s
    rw [waitForDeletion_succ]
    split
    · split <;> simp [pollRound, Event.serial]
    · simpa [pollRound, Event.serial] using ih _

theorem issuesNone_CreateSecret (env : Env σ) (fuel : Nat) (name secret : String) :
    IssuesNone (Main.CreateSecret env fuel name secret) := by
  unfold Main.CreateSecret
  simp only [Prog.bind_eq, Prog.pure_eq]
  repeat' first
    | exact issuesNone_goPanic _
    | exact issuesNone_ret _
    | exact issuesNone_waitForDeletion env _ fuel
    | exact issuesNone_perform _ _ fun _ => rfl
    | exact issuesNone_emit _ rfl
    | refine issuesNone_andThen _ _ ?_ (fun _ => ?_)
    | split

theorem issuesNone_GetRuntimeGroupConfiguration (env : Env σ) (flags : Main.Flags) :
    IssuesNone (Main.GetRuntimeGroupConfiguration env flags) := by
  unfold Main.GetRuntimeGroupConfiguration
  simp only [Prog.bind_eq, Prog.pure_eq]
  repeat' first
    | exact issuesNone_goPanic _
    | exact issuesNone_ret _
    | exact issuesNone_Println _
    | exact issuesNone_clientDo env _
    | refine issuesNone_andThen _ _ ?_ (fun _ => ?_)
    | split

theorem issuesSerialOne_issue (op : σ → α × σ) (template parent : Certificate)
    (f : α → Prog σ β) (h1 : template.SerialNumber = 1) (hf : ∀ a, IssuesNone (f a)) :
    IssuesSerialOne ((Prog.perform op fun _ => .createCertificate template parent).andThen f) := by
  intro s
  right
  simp [Event.serial, h1, hf (op s).1 (op s).2]

theorem issuesSerialOne_GenerateKeys (env : Env σ) (fuel : Nat) (flags : Main.Flags) :
    IssuesSerialOne (Main.GenerateKeys env fuel flags) := by
  unfold Main.GenerateKeys
  simp only [Prog.bind_eq, Prog.pure_eq]
  refine issuesSerialOne_andThen _ _ (issuesNone_GetRuntimeGroupConfiguration env flags)
    (fun _ => ?_)
  repeat' first
    | exact issuesSerialOne_of_none _ (issuesNone_goPanic _)
    | exact issuesNone_goPanic _
    | exact issuesNone_Println _
    | exact issuesNone_emit _ rfl
    | exact issuesNone_clientDo env _
    | exact issuesNone_CreateSecret env fuel _ _
    | refine issuesSerialOne_andThen _ _ (issuesNone_Println _) (fun _ => ?_)
    | refine issuesSerialOne_andThen _ _ (issuesNone_perform _ _ fun _ => rfl) (fun _ => ?_)
    | refine issuesSerialOne_issue _ _ _ _ rfl (fun _ => ?_)
    | refine issuesNone_andThen _ _ ?_ (fun _ => ?_)
    | split

theorem length_filter_isCreateCertificate (l : List Event) :
    (l.filter Event.isCreateCertificate).length = (l.filterMap Event.serial).length := by
  induction l with
  | nil => rfl
  | cons e l ih => cases e <;> simp [Event.isCreateCertificate, Event.serial, ih]

/-- C11, as amended.  In any environment, from any state and with any fuel, one call of
`GenerateKeys` creates at most one certificate, and the template of every certificate
it creates carries the serial number 1.  So no serial number is used twice within one
call, and every issuance carries the same serial number. -/
theorem GenerateKeys_serial_is_one (env : Env σ) (fuel : Nat) (flags : Main.Flags) (s : σ) :
    ((Main.GenerateKeys env fuel flags s).trace.filter Event.isCreateCertificate).length ≤ 1 ∧
    ∀ template parent, Event.createCertificate template parent ∈
      (Main.GenerateKeys env fuel flags s).trace → template.SerialNumber = 1 := by
  have h := issuesSerialOne_GenerateKeys env fuel flags s
  constructor
  · rw [length_filter_isCreateCertificate]
    rcases h with h | h <;> simp [h]
  · intro template parent hmem
    have hser : template.SerialNumber ∈
        (Main.GenerateKeys env fuel flags s).trace.filterMap Event.serial :=
      List.mem_filterMap.2 ⟨_, hmem, rfl⟩
    rcases h with h | h
    · simp [h] at hser
    · simpa [h] using hser

/-- A whole run of `main` creates at most one certificate, with serial number 1: `main`
calls `GenerateKeys` at most once. -/
theorem main_serial_is_one (env : Env σ) (fuel : Nat) (flags : Main.Flags) (s : σ) :
    (Main.main env fuel flags s).trace.filterMap Event.serial = [] ∨
    (Main.main env fuel flags s).trace.filterMap Event.serial = [1] := by
  have hkeys := issuesSerialOne_GenerateKeys env fuel flags
  have h : IssuesSerialOne (Main.main env fuel flags) := by
    unfold Main.main
    simp only [Prog.bind_eq, Prog.pure_eq]
    repeat' first
      | exact hkeys
      | exact issuesSerialOne_of_none _ (issuesNone_logFatal _)
      | exact issuesSerialOne_of_none _ (issuesNone_Println _)
      | exact issuesNone_logFatal _
      | exact issuesNone_ret _
      | exact issuesNone_Println _
      | refine issuesSerialOne_andThen _ _ (issuesNone_clientDo env _) (fun _ => ?_)
      | refine issuesSerialOne_andThen _ _ ?_ (fun _ => ?_)
      | split
  exact h s

/-- C11, counterexample.  `GenerateKeys` runs twice, one run after the other, each with
every call answered favourably; the second run starts from the state the first one
left.  Each run creates one certificate, and the two templates carry the same serial
number, 1. -/
theorem GenerateKeys_serial_reused :
    (Main.GenerateKeys (World.env asciiLib) 1 runtimeFlags twoRunsWorld).trace.filterMap
        Event.serial = [1] ∧
    (Main.GenerateKeys (World.env asciiLib) 1 runtimeFlags
        (Main.GenerateKeys (World.env asciiLib) 1 runtimeFlags twoRunsWorld).state).trace.filterMap
        Event.serial = [1] ∧
    (Main.GenerateKeys (World.env asciiLib) 1 runtimeFlags twoRunsWorld).outcome = .returned () ∧
    (Main.GenerateKeys (World.env asciiLib) 1 runtimeFlags
        (Main.GenerateKeys (World.env asciiLib) 1 runtimeFlags twoRunsWorld).state).outcome =
      .returned () := by
  decide

end Serial

/-! ## Classes of describe errors -/

section ErrorClass

set_option maxRecDepth 100000

theorem startsWith_append (p s : List Char) : startsWith (p ++ s) p = true := by
  induction p with
  | nil => cases s <;> rfl
  | cons c p ih => simp [startsWith, ih]

theorem containsChars_append (a p b : List Char) : containsChars (a ++ (p ++ b)) p = true := by
  induction a with
  | nil =>
    cases h : p ++ b with
    | nil =>
      have hp : p = [] := (List.append_eq_nil.1 h).1
      subst hp
      rfl
    | cons c s =>
      have := startsWith_append p b
      rw [h] at this
      simp [containsChars, this]
  | cons x a ih => simp [containsChars, ih]

/-- The test of the code recognises every error of the not-found class: the text of
such an error contains `ResourceNotFoundException`. -/
theorem ApiError.contains_of_isNotFound (e : ApiError) (h : e.isNotFound = true) :
    Contains e.Error "ResourceNotFoundException" = true := by
  have hcode : e.code = "ResourceNotFoundException" := by
    simpa [ApiError.isNotFound] using h
  have h2 := containsChars_append
    ("operation error Secrets Manager: ".data ++
      (e.operation.data ++ ", https response error StatusCode: 400, ".data))
    "ResourceNotFoundException".data (": ".data ++ e.message.data)
  simpa [Contains, ApiError.Error, hcode, String.data_append, List.append_assoc] using h2

end ErrorClass

end Konnect
